import Mathlib

/-!
Verification development for the league materialization core
(league/services.py, league/utils.py, league/models.py).

The Django ORM tables are embedded as plain Lean lists of structure rows;
an in-memory database value of type DB stands for the persistent state.
Machine integers of the source are embedded as Int (points, dates) and
Nat (surrogate keys); Python floats are embedded as exact rationals.
Functions decorated with transaction.atomic are embedded as
DB -> Except String DB: returning .error models an exception that rolls
the whole transaction back, so the caller observes the unchanged DB.

Dates and datetimes are embedded as integers (a day number or a
timestamp): the source only compares them, adds or subtracts whole days
(timedelta(days=1)), and projects a kickoff datetime to its local date,
which is kept as a separate field kickoffDate of the fixture row.

Python str.lower() followed by string comparison is embedded as
comparison of the lists of lowercased code points (pyLowerCodes);
this agrees with CPython on the ASCII names the source compares.
-/

/-- Two-valued PlayerScore.side (HOME or AWAY choices of the model). -/
inductive Side where
  | home
  | away
deriving DecidableEq, Repr

/-- Competition.comp_type choices. -/
inductive CompType where
  | league
  | cup
  | superCup
deriving DecidableEq, Repr

/-- Season model row: name is irrelevant to the core; bounds are used by
TeamMembership.clean. -/
structure Season where
  id : Nat
  startDate : Int
  endDate : Int
deriving DecidableEq, Repr

/-- Scope model row: the (season, competition, division, group) tuple. Only
the season link and the competition type are read by the core, so the
division and group links are not carried. -/
structure Scope where
  id : Nat
  seasonId : Nat
  compType : CompType
deriving DecidableEq, Repr

/-- Team model row. -/
structure Team where
  id : Nat
  name : String
deriving DecidableEq, Repr

/-- Player model row. -/
structure Player where
  id : Nat
  name : String
deriving DecidableEq, Repr

/-- TeamMembership model row: a time window of a player playing for a team
in a season (end_date null means the window is open). -/
structure TeamMembership where
  id : Nat
  seasonId : Nat
  teamId : Nat
  playerId : Nat
  startDate : Int
  endDate : Option Int
deriving DecidableEq, Repr

/-- Transfer model row (from_team is never read by the core). -/
structure Transfer where
  id : Nat
  seasonId : Nat
  playerId : Nat
  toTeamId : Nat
  date : Int
deriving DecidableEq, Repr

/-- Fixture model row. The gameweek foreign key is carried as the pair of
the Gameweek row's id and number; kickoffAt is the ordering timestamp and
kickoffDate its local calendar date. The last five fields are the cached
values recomputed by recalculate_fixture_totals. -/
structure Fixture where
  id : Nat
  scopeId : Nat
  gameweekId : Nat
  gameweekNumber : Nat
  kickoffAt : Int
  kickoffDate : Int
  homeTeamId : Nat
  awayTeamId : Nat
  homeTotalPoints : Int
  awayTotalPoints : Int
  homeMatchPoints : Int
  awayMatchPoints : Int
  isPlayed : Bool
deriving DecidableEq, Repr

/-- Result model row: one-to-one with a fixture. -/
structure Result where
  id : Nat
  fixtureId : Nat
deriving DecidableEq, Repr

/-- PlayerScore model row: one scored player on one side of one result. -/
structure PlayerScore where
  resultId : Nat
  side : Side
  playerId : Nat
  points : Int
deriving DecidableEq, Repr

/-- TeamStanding model row (updated_at is persistence mechanics and is not
carried). -/
structure TeamStanding where
  scopeId : Nat
  teamId : Nat
  played : Nat
  wins : Nat
  draws : Nat
  losses : Nat
  matchPoints : Int
  totalPoints : Int
  formLast5 : List String
deriving DecidableEq, Repr

/-- PlayerStanding model row. average_points is the exact rational mean.
The source persists stddev_points = sqrt(sample variance) as a float;
the square root of a rational is not exactly representable, so the row
carries the sample variance stddevSq instead, of which the persisted
value is a deterministic strictly monotone function. -/
structure PlayerStanding where
  scopeId : Nat
  playerId : Nat
  matchesPlayed : Nat
  totalPoints : Int
  bestMatchPoints : Int
  averagePoints : ℚ
  stddevSq : ℚ
deriving DecidableEq, Repr

/-- RecordSnapshot model row: foreign keys to record-setting fixtures,
teams and players are carried as optional ids. -/
structure RecordSnapshot where
  scopeId : Nat
  biggestWinMargin : Int
  biggestWinFixtureId : Option Nat
  highestTeamMatchScore : Int
  highestTeamMatchFixtureId : Option Nat
  highestTeamMatchTeamId : Option Nat
  highestPlayerScore : Int
  highestPlayerId : Option Nat
  highestPlayerScoreFixtureId : Option Nat
  longestWinStreak : Nat
  longestUnbeatenStreak : Nat
deriving DecidableEq, Repr

/-- PowerRanking model row, one per (scope, gameweek, team). -/
structure PowerRanking where
  scopeId : Nat
  gameweekId : Nat
  teamId : Nat
  rank : Nat
  score : ℚ
deriving DecidableEq, Repr

/-- The database state read and written by the core. -/
structure DB where
  seasons : List Season
  scopes : List Scope
  teams : List Team
  players : List Player
  memberships : List TeamMembership
  transfers : List Transfer
  fixtures : List Fixture
  results : List Result
  scores : List PlayerScore
  teamStandings : List TeamStanding
  playerStandings : List PlayerStanding
  records : List RecordSnapshot
  powerRankings : List PowerRanking
deriving DecidableEq, Repr

/-! Generic list helpers mirroring Python dict and max behaviour. -/

/-- Keys of a Python dict built by inserting the given keys in order:
duplicates collapse onto the first occurrence. -/
def dedupFirst {α : Type} [DecidableEq α] : List α → List α
  | [] => []
  | x :: xs => x :: (dedupFirst xs).filter (fun y => y ≠ x)

/-- Python max(values) with a default for the empty list. -/
def listMaxD (d : Int) : List Int → Int
  | [] => d
  | x :: xs => xs.foldl max x

/-- Lookup in an association list (a Python dict keyed by Nat), with a
default for a missing key. -/
def alGet {α : Type} (l : List (Nat × α)) (k : Nat) (d : α) : α :=
  match l.find? (fun p => p.1 = k) with
  | some p => p.2
  | none => d

/-- Point update of an association list: replace the value at an existing
key, leave the list unchanged when the key is absent. -/
def alSet {α : Type} (l : List (Nat × α)) (k : Nat) (v : α) : List (Nat × α) :=
  l.map (fun p => if p.1 = k then (p.1, v) else p)

/-- Lowercased code points of a string, as CPython str.lower() acts on the
ASCII names compared by the source. -/
def pyLowerCodes (s : String) : List Nat :=
  s.data.map (fun c => let n := c.toNat; if 65 ≤ n ∧ n ≤ 90 then n + 32 else n)

/-- Lexicographic strict order on code-point lists (Python string <). -/
def codesLt : List Nat → List Nat → Bool
  | [], [] => false
  | [], _ :: _ => true
  | _ :: _, [] => false
  | a :: as, b :: bs => if a < b then true else if b < a then false else codesLt as bs

/-- Lexicographic weak order on code-point lists (Python string <=). -/
def codesLe (a b : List Nat) : Bool := !(codesLt b a)

/-! The Membership Resolver (services.members_of_team_on_date). -/

/-- Players whose membership window for the team in the season covers the
date: start_date <= date and (end_date is null or end_date >= date). -/
def members_of_team_on_date (memberships : List TeamMembership)
    (seasonId teamId : Nat) (onDate : Int) : List Nat :=
  (memberships.filter (fun m =>
    m.seasonId == seasonId && m.teamId == teamId && decide (m.startDate ≤ onDate) &&
      (match m.endDate with
       | none => true
       | some e => decide (onDate ≤ e)))).map (fun m => m.playerId)

/-! The Fixture Totals Calculator (services.recalculate_fixture_totals). -/

/-- The five cached fixture fields written by recalculate_fixture_totals. -/
structure CachedTotals where
  homeTotalPoints : Int
  awayTotalPoints : Int
  homeMatchPoints : Int
  awayMatchPoints : Int
  isPlayed : Bool
deriving DecidableEq, Repr

/-- Write the cached fields of a fixture row (fixture.save with the five
update_fields). -/
def applyCached (v : CachedTotals) (f : Fixture) : Fixture :=
  { f with
    homeTotalPoints := v.homeTotalPoints
    awayTotalPoints := v.awayTotalPoints
    homeMatchPoints := v.homeMatchPoints
    awayMatchPoints := v.awayMatchPoints
    isPlayed := v.isPlayed }

/-- The all-zero, not-played cached state used for incomplete data. -/
def zeroTotals : CachedTotals :=
  { homeTotalPoints := 0, awayTotalPoints := 0, homeMatchPoints := 0
    awayMatchPoints := 0, isPlayed := false }

/-- PlayerScore rows of one result (PlayerScore.objects.filter(result=res)). -/
def scoresOfResult (scores : List PlayerScore) (resId : Nat) : List PlayerScore :=
  scores.filter (fun s => s.resultId = resId)

/-- The HOME subset of a result's scores. -/
def homeScoresOf (scores : List PlayerScore) (resId : Nat) : List PlayerScore :=
  (scoresOfResult scores resId).filter (fun s => s.side = Side.home)

/-- The AWAY subset of a result's scores. -/
def awayScoresOf (scores : List PlayerScore) (resId : Nat) : List PlayerScore :=
  (scoresOfResult scores resId).filter (fun s => s.side = Side.away)

/-- Core of recalculate_fixture_totals: from the static tables and one
fixture row, decide which cached values to write, or fail. Mirrors
services.py lines 93-159: no result or not exactly 3 HOME + 3 AWAY scores
writes zeroTotals; an ineligible scored player raises (ValueError in the
source, the EligibilityError of the specification); otherwise the summed
totals, 3/0 or 0/3 or 1/1 match points, and is_played = true. -/
def recalcCore (scopes : List Scope) (memberships : List TeamMembership)
    (results : List Result) (scores : List PlayerScore)
    (f : Fixture) : Except String CachedTotals :=
  match results.find? (fun r => r.fixtureId = f.id) with
  | none => .ok zeroTotals
  | some res =>
    let resScores := scoresOfResult scores res.id
    let homeScores := homeScoresOf scores res.id
    let awayScores := awayScoresOf scores res.id
    if resScores.length ≠ 6 ∨ homeScores.length ≠ 3 ∨ awayScores.length ≠ 3 then
      .ok zeroTotals
    else
      match scopes.find? (fun sc => sc.id = f.scopeId) with
      | none => .error "Scope matching query does not exist."
      | some scope =>
        let onDate := f.kickoffDate
        let homeMemberIds := members_of_team_on_date memberships scope.seasonId f.homeTeamId onDate
        let awayMemberIds := members_of_team_on_date memberships scope.seasonId f.awayTeamId onDate
        if homeScores.any (fun s => !(homeMemberIds.contains s.playerId)) then
          .error "HOME player is not in the home team on kickoff date."
        else if awayScores.any (fun s => !(awayMemberIds.contains s.playerId)) then
          .error "AWAY player is not in the away team on kickoff date."
        else
          let homeTotal : Int := (homeScores.map (fun s => s.points)).sum
          let awayTotal : Int := (awayScores.map (fun s => s.points)).sum
          let mp : Int × Int :=
            if homeTotal > awayTotal then (3, 0)
            else if homeTotal < awayTotal then (0, 3)
            else (1, 1)
          .ok { homeTotalPoints := homeTotal, awayTotalPoints := awayTotal
                homeMatchPoints := mp.1, awayMatchPoints := mp.2, isPlayed := true }

/-- Replace the cached fields of the fixture with the given id in the
fixtures table. -/
def writeFixture (fixtures : List Fixture) (fid : Nat) (v : CachedTotals) : List Fixture :=
  fixtures.map (fun f => if f.id = fid then applyCached v f else f)

/-- recalculate_fixture_totals on the fixtures table: look the fixture up,
run the core, and on success write the cached fields back. -/
def recalcFixtures (scopes : List Scope) (memberships : List TeamMembership)
    (results : List Result) (scores : List PlayerScore)
    (fixtures : List Fixture) (fid : Nat) : Except String (List Fixture) :=
  match fixtures.find? (fun f => f.id = fid) with
  | none => .error "Fixture matching query does not exist."
  | some f =>
    match recalcCore scopes memberships results scores f with
    | .error e => .error e
    | .ok v => .ok (writeFixture fixtures fid v)

/-- services.recalculate_fixture_totals as a transaction on the database
state: .error models the raised exception rolling the transaction back. -/
def recalculate_fixture_totals (db : DB) (fid : Nat) : Except String DB :=
  match recalcFixtures db.scopes db.memberships db.results db.scores db.fixtures fid with
  | .error e => .error e
  | .ok fxs => .ok { db with fixtures := fxs }

/-! Supporting lemmas about score splitting and fixture writes. -/

/-- A result's scores split by the two-valued side field: the HOME and AWAY
subsets partition the list, so their lengths add up. -/
theorem length_side_split (l : List PlayerScore) :
    l.length = (l.filter (fun s => s.side = Side.home)).length
      + (l.filter (fun s => s.side = Side.away)).length := by
  induction l with
  | nil => rfl
  | cons s t ih =>
    cases h : s.side <;> simp [List.filter_cons, h, ih] <;> omega

/-- The points of the HOME subset and of the AWAY subset add up to the
points of the whole score list. -/
theorem sum_side_split (l : List PlayerScore) :
    ((l.filter (fun s => s.side = Side.home)).map (fun s => s.points)).sum
      + ((l.filter (fun s => s.side = Side.away)).map (fun s => s.points)).sum
      = (l.map (fun s => s.points)).sum := by
  induction l with
  | nil => rfl
  | cons s t ih =>
    cases h : s.side <;> simp [List.filter_cons, h] <;> omega

/-- Looking the written fixture up after writeFixture returns the row with
the cached fields replaced. -/
theorem find_writeFixture {fxs : List Fixture} {fid : Nat} {f : Fixture} (v : CachedTotals)
    (h : fxs.find? (fun g => g.id = fid) = some f) :
    (writeFixture fxs fid v).find? (fun g => g.id = fid) = some (applyCached v f) := by
  induction fxs with
  | nil => simp [List.find?] at h
  | cons g t ih =>
    by_cases hg : g.id = fid
    · rw [List.find?_cons_of_pos _ (by simpa using hg)] at h
      cases h
      simp only [writeFixture, List.map_cons, if_pos hg]
      exact List.find?_cons_of_pos _ (by simpa using hg)
    · rw [List.find?_cons_of_neg _ (by simpa using hg)] at h
      simp only [writeFixture, List.map_cons, if_neg hg]
      rw [List.find?_cons_of_neg _ (by simpa using hg)]
      exact ih h

/-! Claims C1-C3 about the Fixture Totals Calculator. -/

/-- C1: for a fixture whose result has exactly 3 HOME and 3 AWAY scores,
all scored players eligible on the kickoff date, recalculate_fixture_totals
writes home_total = sum of the HOME points and away_total = sum of the AWAY
points (so their sum is the sum of all six points), match points (3,0),
(0,3) or (1,1) by comparison of the totals, and is_played = true. -/
theorem recalc_totals_complete_eligible (db : DB) (fid : Nat) (f : Fixture)
    (res : Result) (scope : Scope)
    (hf : db.fixtures.find? (fun g => g.id = fid) = some f)
    (hres : db.results.find? (fun r => r.fixtureId = f.id) = some res)
    (hscope : db.scopes.find? (fun sc => sc.id = f.scopeId) = some scope)
    (hhl : (homeScoresOf db.scores res.id).length = 3)
    (hal : (awayScoresOf db.scores res.id).length = 3)
    (helH : ∀ s ∈ homeScoresOf db.scores res.id,
      s.playerId ∈ members_of_team_on_date db.memberships scope.seasonId f.homeTeamId f.kickoffDate)
    (helA : ∀ s ∈ awayScoresOf db.scores res.id,
      s.playerId ∈ members_of_team_on_date db.memberships scope.seasonId f.awayTeamId f.kickoffDate) :
    ∃ v : CachedTotals,
      recalculate_fixture_totals db fid = .ok { db with fixtures := writeFixture db.fixtures fid v } ∧
      (writeFixture db.fixtures fid v).find? (fun g => g.id = fid) = some (applyCached v f) ∧
      v.homeTotalPoints = ((homeScoresOf db.scores res.id).map (fun s => s.points)).sum ∧
      v.awayTotalPoints = ((awayScoresOf db.scores res.id).map (fun s => s.points)).sum ∧
      v.homeTotalPoints + v.awayTotalPoints
        = ((scoresOfResult db.scores res.id).map (fun s => s.points)).sum ∧
      (v.homeTotalPoints > v.awayTotalPoints →
        v.homeMatchPoints = 3 ∧ v.awayMatchPoints = 0) ∧
      (v.homeTotalPoints < v.awayTotalPoints →
        v.homeMatchPoints = 0 ∧ v.awayMatchPoints = 3) ∧
      (v.homeTotalPoints = v.awayTotalPoints →
        v.homeMatchPoints = 1 ∧ v.awayMatchPoints = 1) ∧
      v.isPlayed = true := by
  have hlen : (scoresOfResult db.scores res.id).length = 6 := by
    have h := length_side_split (scoresOfResult db.scores res.id)
    rw [show ((scoresOfResult db.scores res.id).filter (fun s => s.side = Side.home))
          = homeScoresOf db.scores res.id from rfl,
        show ((scoresOfResult db.scores res.id).filter (fun s => s.side = Side.away))
          = awayScoresOf db.scores res.id from rfl, hhl, hal] at h
    omega
  have hanyH : (homeScoresOf db.scores res.id).any
      (fun s => !((members_of_team_on_date db.memberships scope.seasonId f.homeTeamId f.kickoffDate).contains s.playerId)) = false := by
    rw [List.any_eq_false]
    intro s hs
    simpa using helH s hs
  have hanyA : (awayScoresOf db.scores res.id).any
      (fun s => !((members_of_team_on_date db.memberships scope.seasonId f.awayTeamId f.kickoffDate).contains s.playerId)) = false := by
    rw [List.any_eq_false]
    intro s hs
    simpa using helA s hs
  set H : Int := ((homeScoresOf db.scores res.id).map (fun s => s.points)).sum with hH
  set A : Int := ((awayScoresOf db.scores res.id).map (fun s => s.points)).sum with hA
  have hsum : H + A = ((scoresOfResult db.scores res.id).map (fun s => s.points)).sum :=
    sum_side_split (scoresOfResult db.scores res.id)
  have hcore0 : ∀ hmp amp : Int,
      (if H > A then ((3 : Int), (0 : Int)) else if H < A then (0, 3) else (1, 1)) = (hmp, amp) →
      recalcCore db.scopes db.memberships db.results db.scores f =
        .ok { homeTotalPoints := H, awayTotalPoints := A,
              homeMatchPoints := hmp, awayMatchPoints := amp, isPlayed := true } := by
    intro hmp amp hpair
    simp only [recalcCore, hres, hscope]
    rw [if_neg (by omega)]
    rw [if_neg (by rw [hanyH]; exact Bool.false_ne_true),
        if_neg (by rw [hanyA]; exact Bool.false_ne_true)]
    rw [← hH, ← hA, hpair]
  rcases lt_trichotomy A H with hlt | heq | hgt
  · have hcore := hcore0 3 0 (by rw [if_pos (by omega)])
    refine ⟨⟨H, A, 3, 0, true⟩, ?_, find_writeFixture _ hf, rfl, rfl, hsum,
      fun _ => ⟨rfl, rfl⟩, fun hc => absurd (show H < A from hc) (by omega),
      fun hc => absurd (show H = A from hc) (by omega), rfl⟩
    simp only [recalculate_fixture_totals, recalcFixtures, hf, hcore]
  · have hcore := hcore0 1 1 (by rw [if_neg (by omega), if_neg (by omega)])
    refine ⟨⟨H, A, 1, 1, true⟩, ?_, find_writeFixture _ hf, rfl, rfl, hsum,
      fun hc => absurd (show H > A from hc) (by omega),
      fun hc => absurd (show H < A from hc) (by omega), fun _ => ⟨rfl, rfl⟩, rfl⟩
    simp only [recalculate_fixture_totals, recalcFixtures, hf, hcore]
  · have hcore := hcore0 0 3 (by rw [if_neg (by omega), if_pos (by omega)])
    refine ⟨⟨H, A, 0, 3, true⟩, ?_, find_writeFixture _ hf, rfl, rfl, hsum,
      fun hc => absurd (show H > A from hc) (by omega), fun _ => ⟨rfl, rfl⟩,
      fun hc => absurd (show H = A from hc) (by omega), rfl⟩
    simp only [recalculate_fixture_totals, recalcFixtures, hf, hcore]

/-- C2: for a fixture with no Result, or whose Result does not have exactly
3 HOME and 3 AWAY scores, recalculate_fixture_totals writes all four cached
totals as 0 and is_played = false, regardless of the prior cached state, and
succeeds (no error is raised). -/
theorem recalc_totals_incomplete_zeroes (db : DB) (fid : Nat) (f : Fixture)
    (hf : db.fixtures.find? (fun g => g.id = fid) = some f)
    (hcase : db.results.find? (fun r => r.fixtureId = f.id) = none ∨
      ∃ res, db.results.find? (fun r => r.fixtureId = f.id) = some res ∧
        ¬((homeScoresOf db.scores res.id).length = 3 ∧
          (awayScoresOf db.scores res.id).length = 3)) :
    recalculate_fixture_totals db fid =
      .ok { db with fixtures := writeFixture db.fixtures fid zeroTotals } ∧
    (writeFixture db.fixtures fid zeroTotals).find? (fun g => g.id = fid)
      = some (applyCached zeroTotals f) := by
  refine ⟨?_, find_writeFixture _ hf⟩
  rcases hcase with hnone | ⟨res, hres, hbad⟩
  · have hcore : recalcCore db.scopes db.memberships db.results db.scores f = .ok zeroTotals := by
      simp only [recalcCore, hnone]
    simp only [recalculate_fixture_totals, recalcFixtures, hf, hcore]
  · have hcond : (scoresOfResult db.scores res.id).length ≠ 6 ∨
        (homeScoresOf db.scores res.id).length ≠ 3 ∨
        (awayScoresOf db.scores res.id).length ≠ 3 := by
      by_cases hh : (homeScoresOf db.scores res.id).length = 3
      · exact Or.inr (Or.inr (fun ha => hbad ⟨hh, ha⟩))
      · exact Or.inr (Or.inl hh)
    have hcore : recalcCore db.scopes db.memberships db.results db.scores f = .ok zeroTotals := by
      simp only [recalcCore, hres]
      rw [if_pos hcond]
    simp only [recalculate_fixture_totals, recalcFixtures, hf, hcore]

/-- C3: for a fixture with a complete Result (3 HOME + 3 AWAY scores) in
which some scored player is not a member of the team they are scored for on
the kickoff date, recalculate_fixture_totals raises (the source raises
ValueError, the EligibilityError of the specification). The transaction
rolls back, so the database - in particular the fixture's cached totals and
is_played flag - is exactly as before the call: in this embedding an
.error outcome carries no new state. -/
theorem recalc_totals_ineligible_raises (db : DB) (fid : Nat) (f : Fixture)
    (res : Result) (scope : Scope)
    (hf : db.fixtures.find? (fun g => g.id = fid) = some f)
    (hres : db.results.find? (fun r => r.fixtureId = f.id) = some res)
    (hscope : db.scopes.find? (fun sc => sc.id = f.scopeId) = some scope)
    (hhl : (homeScoresOf db.scores res.id).length = 3)
    (hal : (awayScoresOf db.scores res.id).length = 3)
    (hbad : (∃ s ∈ homeScoresOf db.scores res.id,
        s.playerId ∉ members_of_team_on_date db.memberships scope.seasonId f.homeTeamId f.kickoffDate) ∨
      (∃ s ∈ awayScoresOf db.scores res.id,
        s.playerId ∉ members_of_team_on_date db.memberships scope.seasonId f.awayTeamId f.kickoffDate)) :
    ∃ e, recalculate_fixture_totals db fid = .error e := by
  have hlen : (scoresOfResult db.scores res.id).length = 6 := by
    have h := length_side_split (scoresOfResult db.scores res.id)
    rw [show ((scoresOfResult db.scores res.id).filter (fun s => s.side = Side.home))
          = homeScoresOf db.scores res.id from rfl,
        show ((scoresOfResult db.scores res.id).filter (fun s => s.side = Side.away))
          = awayScoresOf db.scores res.id from rfl, hhl, hal] at h
    omega
  by_cases hanyH : (homeScoresOf db.scores res.id).any
      (fun s => !((members_of_team_on_date db.memberships scope.seasonId f.homeTeamId f.kickoffDate).contains s.playerId)) = true
  · refine ⟨"HOME player is not in the home team on kickoff date.", ?_⟩
    have hcore : recalcCore db.scopes db.memberships db.results db.scores f =
        .error "HOME player is not in the home team on kickoff date." := by
      simp only [recalcCore, hres, hscope]
      rw [if_neg (by omega), if_pos hanyH]
    simp only [recalculate_fixture_totals, recalcFixtures, hf, hcore]
  · have hanyA : (awayScoresOf db.scores res.id).any
        (fun s => !((members_of_team_on_date db.memberships scope.seasonId f.awayTeamId f.kickoffDate).contains s.playerId)) = true := by
      rcases hbad with ⟨s, hs, hmem⟩ | ⟨s, hs, hmem⟩
      · exfalso
        apply hanyH
        rw [List.any_eq_true]
        exact ⟨s, hs, by simpa using hmem⟩
      · rw [List.any_eq_true]
        exact ⟨s, hs, by simpa using hmem⟩
    refine ⟨"AWAY player is not in the away team on kickoff date.", ?_⟩
    have hcore : recalcCore db.scopes db.memberships db.results db.scores f =
        .error "AWAY player is not in the away team on kickoff date." := by
      simp only [recalcCore, hres, hscope]
      rw [if_neg (by omega), if_neg hanyH, if_pos hanyA]
    simp only [recalculate_fixture_totals, recalcFixtures, hf, hcore]

/-! Concrete sample data for evaluating the claims (the scenario of the
specification: T1 players score 10, 8, 7 and T2 players score 9, 9, 9). -/

/-- A league fixture with no cached data entered yet. -/
def fxA : Fixture :=
  { id := 100, scopeId := 10, gameweekId := 1, gameweekNumber := 1
    kickoffAt := 50, kickoffDate := 50, homeTeamId := 1, awayTeamId := 2
    homeTotalPoints := 0, awayTotalPoints := 0, homeMatchPoints := 0
    awayMatchPoints := 0, isPlayed := false }

/-- A league fixture carrying stale nonzero cached values. -/
def fxB : Fixture :=
  { id := 102, scopeId := 10, gameweekId := 2, gameweekNumber := 2
    kickoffAt := 60, kickoffDate := 60, homeTeamId := 1, awayTeamId := 2
    homeTotalPoints := 5, awayTotalPoints := 4, homeMatchPoints := 3
    awayMatchPoints := 0, isPlayed := true }

/-- Sample database: one season, a LEAGUE scope and a CUP scope, two teams
of three open members each, a complete result for fxA and a five-score
result for fxB. -/
def sampleDB : DB :=
  { seasons := [{ id := 1, startDate := 0, endDate := 365 }]
    scopes := [{ id := 10, seasonId := 1, compType := CompType.league },
               { id := 20, seasonId := 1, compType := CompType.cup }]
    teams := [{ id := 1, name := "Alpha" }, { id := 2, name := "Beta" }]
    players := [{ id := 1, name := "P1" }, { id := 2, name := "P2" },
                { id := 3, name := "P3" }, { id := 4, name := "P4" },
                { id := 5, name := "P5" }, { id := 6, name := "P6" }]
    memberships :=
      [{ id := 1, seasonId := 1, teamId := 1, playerId := 1, startDate := 0, endDate := none },
       { id := 2, seasonId := 1, teamId := 1, playerId := 2, startDate := 0, endDate := none },
       { id := 3, seasonId := 1, teamId := 1, playerId := 3, startDate := 0, endDate := none },
       { id := 4, seasonId := 1, teamId := 2, playerId := 4, startDate := 0, endDate := none },
       { id := 5, seasonId := 1, teamId := 2, playerId := 5, startDate := 0, endDate := none },
       { id := 6, seasonId := 1, teamId := 2, playerId := 6, startDate := 0, endDate := none }]
    transfers := []
    fixtures := [fxA, fxB]
    results := [{ id := 1000, fixtureId := 100 }, { id := 1002, fixtureId := 102 }]
    scores :=
      [{ resultId := 1000, side := Side.home, playerId := 1, points := 10 },
       { resultId := 1000, side := Side.home, playerId := 2, points := 8 },
       { resultId := 1000, side := Side.home, playerId := 3, points := 7 },
       { resultId := 1000, side := Side.away, playerId := 4, points := 9 },
       { resultId := 1000, side := Side.away, playerId := 5, points := 9 },
       { resultId := 1000, side := Side.away, playerId := 6, points := 9 },
       { resultId := 1002, side := Side.home, playerId := 1, points := 1 },
       { resultId := 1002, side := Side.home, playerId := 2, points := 1 },
       { resultId := 1002, side := Side.home, playerId := 3, points := 1 },
       { resultId := 1002, side := Side.away, playerId := 4, points := 2 },
       { resultId := 1002, side := Side.away, playerId := 5, points := 2 }]
    teamStandings := []
    playerStandings := []
    records := []
    powerRankings := [] }

/-- Sample database in which the membership of player 4 (scored AWAY for
fxA) ends on day 10, before the kickoff date 50. -/
def dbInelig : DB :=
  { sampleDB with memberships :=
      [{ id := 1, seasonId := 1, teamId := 1, playerId := 1, startDate := 0, endDate := none },
       { id := 2, seasonId := 1, teamId := 1, playerId := 2, startDate := 0, endDate := none },
       { id := 3, seasonId := 1, teamId := 1, playerId := 3, startDate := 0, endDate := none },
       { id := 4, seasonId := 1, teamId := 2, playerId := 4, startDate := 0, endDate := some 10 },
       { id := 5, seasonId := 1, teamId := 2, playerId := 5, startDate := 0, endDate := none },
       { id := 6, seasonId := 1, teamId := 2, playerId := 6, startDate := 0, endDate := none }] }

/-- Witness for C1 at the specification's scenario: fixture fxA, totals
25 and 27, so match points (0,3). -/
theorem recalc_totals_complete_eligible_witness :
    (sampleDB.fixtures.find? (fun g => g.id = 100) = some fxA ∧
     sampleDB.results.find? (fun r => r.fixtureId = fxA.id) = some { id := 1000, fixtureId := 100 } ∧
     sampleDB.scopes.find? (fun sc => sc.id = fxA.scopeId)
       = some { id := 10, seasonId := 1, compType := CompType.league } ∧
     (homeScoresOf sampleDB.scores 1000).length = 3 ∧
     (awayScoresOf sampleDB.scores 1000).length = 3) ∧
    (∃ v : CachedTotals,
      recalculate_fixture_totals sampleDB 100
        = .ok { sampleDB with fixtures := writeFixture sampleDB.fixtures 100 v } ∧
      (writeFixture sampleDB.fixtures 100 v).find? (fun g => g.id = 100)
        = some (applyCached v fxA) ∧
      v.homeTotalPoints = ((homeScoresOf sampleDB.scores 1000).map (fun s => s.points)).sum ∧
      v.awayTotalPoints = ((awayScoresOf sampleDB.scores 1000).map (fun s => s.points)).sum ∧
      v.homeTotalPoints + v.awayTotalPoints
        = ((scoresOfResult sampleDB.scores 1000).map (fun s => s.points)).sum ∧
      (v.homeTotalPoints > v.awayTotalPoints →
        v.homeMatchPoints = 3 ∧ v.awayMatchPoints = 0) ∧
      (v.homeTotalPoints < v.awayTotalPoints →
        v.homeMatchPoints = 0 ∧ v.awayMatchPoints = 3) ∧
      (v.homeTotalPoints = v.awayTotalPoints →
        v.homeMatchPoints = 1 ∧ v.awayMatchPoints = 1) ∧
      v.isPlayed = true) :=
  ⟨⟨by decide, by decide, by decide, by decide, by decide⟩,
    recalc_totals_complete_eligible sampleDB 100 fxA
      { id := 1000, fixtureId := 100 } { id := 10, seasonId := 1, compType := CompType.league }
      (by decide) (by decide) (by decide) (by decide) (by decide) (by decide) (by decide)⟩

/-- Witness for C2 at fixture fxB, whose result has only five scores and
whose cached fields hold stale nonzero values. -/
theorem recalc_totals_incomplete_zeroes_witness :
    (sampleDB.fixtures.find? (fun g => g.id = 102) = some fxB ∧
     ∃ res, sampleDB.results.find? (fun r => r.fixtureId = fxB.id) = some res ∧
        ¬((homeScoresOf sampleDB.scores res.id).length = 3 ∧
          (awayScoresOf sampleDB.scores res.id).length = 3)) ∧
    (recalculate_fixture_totals sampleDB 102 =
      .ok { sampleDB with fixtures := writeFixture sampleDB.fixtures 102 zeroTotals } ∧
    (writeFixture sampleDB.fixtures 102 zeroTotals).find? (fun g => g.id = 102)
      = some (applyCached zeroTotals fxB)) :=
  ⟨⟨by decide, ⟨{ id := 1002, fixtureId := 102 }, by decide, by decide⟩⟩,
    recalc_totals_incomplete_zeroes sampleDB 102 fxB (by decide)
      (Or.inr ⟨{ id := 1002, fixtureId := 102 }, by decide, by decide⟩)⟩

/-- Witness for C3: in dbInelig the away player 4 scored for fxA is no
longer a member of team 2 on the kickoff date, so the recompute raises. -/
theorem recalc_totals_ineligible_raises_witness :
    ((homeScoresOf dbInelig.scores 1000).length = 3 ∧
     (awayScoresOf dbInelig.scores 1000).length = 3 ∧
     (∃ s ∈ awayScoresOf dbInelig.scores 1000,
        s.playerId ∉ members_of_team_on_date dbInelig.memberships 1 fxA.awayTeamId fxA.kickoffDate)) ∧
    (∃ e, recalculate_fixture_totals dbInelig 100 = .error e) :=
  ⟨⟨by decide, by decide, by decide⟩,
    recalc_totals_ineligible_raises dbInelig 100 fxA
      { id := 1000, fixtureId := 100 } { id := 10, seasonId := 1, compType := CompType.league }
      (by decide) (by decide) (by decide) (by decide) (by decide)
      (Or.inr (by decide))⟩

/-! Sorting infrastructure: Python list.sort(key=...) with a tuple key is
embedded as insertion sort (stable, as Python sort) by a key into a
linearly ordered type. -/

/-- Comparison of two elements by a key function. -/
def keyRel {α : Type} {β : Type} [LinearOrder β] (key : α → β) (a b : α) : Prop :=
  key a ≤ key b

instance keyRelDecidable {α β : Type} [LinearOrder β] (key : α → β) :
    DecidableRel (keyRel key) :=
  fun a b => inferInstanceAs (Decidable (key a ≤ key b))

instance keyRelTotal {α β : Type} [LinearOrder β] (key : α → β) :
    IsTotal α (keyRel key) :=
  ⟨fun a b => le_total (key a) (key b)⟩

instance keyRelTrans {α β : Type} [LinearOrder β] (key : α → β) :
    IsTrans α (keyRel key) :=
  ⟨fun _ _ _ hab hbc => le_trans hab hbc⟩

/-- Python list.sort(key=key): stable sort by the key. -/
def pySortByKey {α β : Type} [LinearOrder β] (key : α → β) (l : List α) : List α :=
  List.insertionSort (keyRel key) l

/-- The sorted output is pairwise ordered by the key. -/
theorem pySortByKey_pairwise {α β : Type} [LinearOrder β] (key : α → β) (l : List α) :
    (pySortByKey key l).Pairwise (fun a b => key a ≤ key b) :=
  List.sorted_insertionSort (keyRel key) l

/-- The sorted output is a permutation of the input. -/
theorem pySortByKey_perm {α β : Type} [LinearOrder β] (key : α → β) (l : List α) :
    (pySortByKey key l).Perm l :=
  List.perm_insertionSort (keyRel key) l

/-! The Tie-break and Ordering Engine (league/utils.py). -/

/-- A standings row handed to sort_standings_with_h2h: a dict with team_id,
match_points, total_points and team_name (r.get("team_name") or ""). -/
structure StandRow where
  teamId : Nat
  matchPoints : Int
  totalPoints : Int
  teamName : String
deriving DecidableEq, Repr

/-- utils.head_to_head_points: team A's match points summed over the
played fixtures of the scope between A and B. -/
def head_to_head_points (fixtures : List Fixture) (sid : Nat) (teamA teamB : Nat) : Int :=
  ((fixtures.filter (fun f => f.scopeId == sid && f.isPlayed &&
      ((f.homeTeamId == teamA && f.awayTeamId == teamB) ||
       (f.homeTeamId == teamB && f.awayTeamId == teamA)))).map
    (fun f => if f.homeTeamId = teamA then f.homeMatchPoints else f.awayMatchPoints)).sum

/-- Add v to the value of an existing key of an association list (Python
dict [k] += v; a missing key leaves the list unchanged, which the source
never hits because the dict is pre-seeded with every group team id). -/
def alAdd (l : List (Nat × Int)) (k : Nat) (v : Int) : List (Nat × Int) :=
  l.map (fun p => if p.1 = k then (p.1, p.2 + v) else p)

/-- The zero-initialised dict h2h_sum = dict with a 0 for each team id. -/
def alInit0 (teamIds : List Nat) : List (Nat × Int) :=
  (dedupFirst teamIds).map (fun t => (t, 0))

/-- The double loop over index pairs i < j of team_ids, accumulating each
side's head-to-head points into the dict. -/
def h2hPairsFold (fixtures : List Fixture) (sid : Nat) :
    List Nat → List (Nat × Int) → List (Nat × Int)
  | [], acc => acc
  | a :: rest, acc =>
    h2hPairsFold fixtures sid rest
      (rest.foldl (fun ac b =>
        alAdd (alAdd ac a (head_to_head_points fixtures sid a b))
          b (head_to_head_points fixtures sid b a)) acc)

/-- The Python sort key (-match_points, -h2h_sum, -total_points,
team_name.lower()) as a lexicographic tuple. -/
def standKey (h2h : List (Nat × Int)) (r : StandRow) : ℤ ×ₗ ℤ ×ₗ ℤ ×ₗ List ℕ :=
  toLex (-r.matchPoints, toLex (-(alGet h2h r.teamId 0),
    toLex (-r.totalPoints, pyLowerCodes r.teamName)))

/-- One match-points group of sort_standings_with_h2h: groups of size at
most 1 pass through; larger groups are sorted by (-match_points, -h2h_sum,
-total_points, lowered name) with h2h_sum seeded and accumulated over the
group's team ids only. -/
def tieChunk (fixtures : List Fixture) (sid : Nat) (rows : List StandRow)
    (mp : Int) : List StandRow :=
  let group := rows.filter (fun r => r.matchPoints = mp)
  if group.length ≤ 1 then group
  else
    let teamIds := group.map (fun r => r.teamId)
    let h2h := h2hPairsFold fixtures sid teamIds (alInit0 teamIds)
    pySortByKey (standKey h2h) group

/-- utils.sort_standings_with_h2h: group rows by match_points (groups in
descending match_points order) and concatenate the per-group results. -/
def sort_standings_with_h2h (fixtures : List Fixture) (sid : Nat)
    (rows : List StandRow) : List StandRow :=
  let mps := pySortByKey (fun m : Int => -m) (dedupFirst (rows.map (fun r => r.matchPoints)))
  (mps.map (tieChunk fixtures sid rows)).flatten

/-! Lemmas about dedupFirst and the pairwise head-to-head accumulation. -/

/-- dedupFirst keeps exactly the members of the list. -/
theorem mem_dedupFirst {α : Type} [DecidableEq α] {l : List α} {a : α} :
    a ∈ dedupFirst l ↔ a ∈ l := by
  induction l with
  | nil => simp [dedupFirst]
  | cons x xs ih =>
    simp only [dedupFirst, List.mem_cons, List.mem_filter, ih]
    by_cases hax : a = x
    · simp [hax]
    · simp [hax]

/-- dedupFirst has no duplicates. -/
theorem nodup_dedupFirst {α : Type} [DecidableEq α] (l : List α) :
    (dedupFirst l).Nodup := by
  induction l with
  | nil => exact List.nodup_nil
  | cons x xs ih =>
    refine List.Nodup.cons ?_ (ih.filter _)
    intro hx
    have := (List.mem_filter.mp hx).2
    simp at this

/-- alAdd does not change the keys of the association list. -/
theorem map_fst_alAdd (l : List (Nat × Int)) (k : Nat) (v : Int) :
    (alAdd l k v).map Prod.fst = l.map Prod.fst := by
  induction l with
  | nil => rfl
  | cons p t ih =>
    by_cases hp : p.1 = k <;> simp [alAdd, hp] <;> simpa [alAdd] using ih

/-- alGet on a cons: the head is consulted first. -/
theorem alGet_cons {α : Type} (p : Nat × α) (l : List (Nat × α)) (t : Nat) (d : α) :
    alGet (p :: l) t d = if p.1 = t then p.2 else alGet l t d := by
  by_cases h : p.1 = t <;> simp [alGet, List.find?_cons, h]

/-- alAdd on a cons. -/
theorem alAdd_cons (p : Nat × Int) (l : List (Nat × Int)) (k : Nat) (v : Int) :
    alAdd (p :: l) k v = (if p.1 = k then (p.1, p.2 + v) else p) :: alAdd l k v := rfl

/-- alAdd at another key does not change a looked-up value. -/
theorem alGet_alAdd_ne {l : List (Nat × Int)} {k t : Nat} (v : Int) (h : t ≠ k) :
    alGet (alAdd l k v) t 0 = alGet l t 0 := by
  induction l with
  | nil => rfl
  | cons p rest ih =>
    rw [alAdd_cons]
    by_cases hpk : p.1 = k
    · have hpt : ¬(p.1 = t) := by rw [hpk]; exact fun he => h he.symm
      rw [if_pos hpk, alGet_cons, alGet_cons, if_neg hpt, if_neg hpt]
      exact ih
    · rw [if_neg hpk, alGet_cons, alGet_cons]
      by_cases hpt : p.1 = t
      · rw [if_pos hpt, if_pos hpt]
      · rw [if_neg hpt, if_neg hpt]
        exact ih

/-- alAdd at a present key adds to the looked-up value. -/
theorem alGet_alAdd_self {l : List (Nat × Int)} {t : Nat} (v : Int)
    (hmem : t ∈ l.map Prod.fst) :
    alGet (alAdd l t v) t 0 = alGet l t 0 + v := by
  induction l with
  | nil => simp at hmem
  | cons p rest ih =>
    rw [alAdd_cons]
    by_cases hpt : p.1 = t
    · rw [if_pos hpt, alGet_cons, alGet_cons]
      simp [hpt]
    · have hmem2 : t ∈ rest.map Prod.fst := by
        rcases List.mem_map.mp hmem with ⟨q, hq, hqt⟩
        rcases List.mem_cons.mp hq with hq1 | hq2
        · exact absurd (hq1 ▸ hqt) hpt
        · exact List.mem_map.mpr ⟨q, hq2, hqt⟩
      rw [if_neg hpt, alGet_cons, alGet_cons, if_neg hpt, if_neg hpt]
      exact ih hmem2

/-- The head-to-head sum of the claim: the match points a team earned in
played fixtures against the other teams of its tie group only, summed over
those teams (stated from the tie-break specification). -/
def claimH2hSum (fixtures : List Fixture) (sid : Nat) (groupIds : List Nat) (t : Nat) : Int :=
  ((groupIds.filter (fun b => b ≠ t)).map
    (fun b => head_to_head_points fixtures sid t b)).sum

/-- Ids absent from a Nodup list survive its self-filter. -/
theorem filter_ne_of_notmem {l : List Nat} {t : Nat} (h : t ∉ l) :
    l.filter (fun b => b ≠ t) = l :=
  List.filter_eq_self.mpr (fun b hb => by
    simp only [ne_eq, decide_not, Bool.not_eq_eq_eq_not, Bool.not_true, decide_eq_false_iff_not]
    exact fun he => h (he ▸ hb))

/-- claimH2hSum over a group led by the team itself. -/
theorem claimH2hSum_cons_self (fx : List Fixture) (sid : Nat) {t : Nat} {l : List Nat}
    (h : t ∉ l) :
    claimH2hSum fx sid (t :: l) t
      = (l.map (fun b => head_to_head_points fx sid t b)).sum := by
  unfold claimH2hSum
  rw [List.filter_cons, if_neg (by simp), filter_ne_of_notmem h]

/-- claimH2hSum over a group led by another team. -/
theorem claimH2hSum_cons_ne (fx : List Fixture) (sid : Nat) {a t : Nat} (l : List Nat)
    (h : ¬(a = t)) :
    claimH2hSum fx sid (a :: l) t
      = head_to_head_points fx sid t a + claimH2hSum fx sid l t := by
  unfold claimH2hSum
  rw [List.filter_cons, if_pos (by simp [h]), List.map_cons, List.sum_cons]

/-- The inner pair loop for a fixed first team a preserves the keys. -/
theorem map_fst_h2hInner (fx : List Fixture) (sid : Nat) (a : Nat)
    (rest : List Nat) (acc : List (Nat × Int)) :
    ((rest.foldl (fun ac b =>
      alAdd (alAdd ac a (head_to_head_points fx sid a b))
        b (head_to_head_points fx sid b a)) acc)).map Prod.fst = acc.map Prod.fst := by
  induction rest generalizing acc with
  | nil => rfl
  | cons b bs ih =>
    rw [List.foldl_cons, ih, map_fst_alAdd, map_fst_alAdd]

/-- The inner pair loop does not touch a team outside the pair. -/
theorem alGet_h2hInner_notmem (fx : List Fixture) (sid : Nat) (a : Nat)
    (rest : List Nat) (acc : List (Nat × Int)) (t : Nat)
    (hta : t ≠ a) (htr : t ∉ rest) :
    alGet (rest.foldl (fun ac b =>
      alAdd (alAdd ac a (head_to_head_points fx sid a b))
        b (head_to_head_points fx sid b a)) acc) t 0 = alGet acc t 0 := by
  induction rest generalizing acc with
  | nil => rfl
  | cons b bs ih =>
    have htb : t ≠ b := fun h => htr (h ▸ List.mem_cons_self b bs)
    have htbs : t ∉ bs := fun h => htr (List.mem_cons_of_mem b h)
    rw [List.foldl_cons, ih _ htbs, alGet_alAdd_ne _ htb, alGet_alAdd_ne _ hta]

/-- Value accumulated for t by the inner pair loop with first team a. -/
theorem alGet_h2hInner (fx : List Fixture) (sid : Nat) (a : Nat)
    (rest : List Nat) (acc : List (Nat × Int)) (t : Nat)
    (hmem : t ∈ acc.map Prod.fst) (hanr : a ∉ rest) (hnd : rest.Nodup) :
    alGet (rest.foldl (fun ac b =>
      alAdd (alAdd ac a (head_to_head_points fx sid a b))
        b (head_to_head_points fx sid b a)) acc) t 0
    = alGet acc t 0 +
      (if t = a then ((rest.map (fun b => head_to_head_points fx sid a b)).sum)
       else if t ∈ rest then head_to_head_points fx sid t a else 0) := by
  induction rest generalizing acc with
  | nil => simp
  | cons b bs ih =>
    have hab : a ≠ b := fun h => hanr (h ▸ List.mem_cons_self b bs)
    have habs : a ∉ bs := fun h => hanr (List.mem_cons_of_mem b h)
    have hbbs : b ∉ bs := (List.nodup_cons.mp hnd).1
    have hndbs : bs.Nodup := (List.nodup_cons.mp hnd).2
    rw [List.foldl_cons]
    rw [ih _ (by rw [map_fst_alAdd, map_fst_alAdd]; exact hmem) habs hndbs]
    by_cases hta : t = a
    · subst hta
      rw [alGet_alAdd_ne _ hab, alGet_alAdd_self _ hmem]
      rw [if_pos rfl, if_pos rfl, List.map_cons, List.sum_cons]
      omega
    · by_cases htb : t = b
      · rw [htb] at hta hmem ⊢
        rw [alGet_alAdd_self _ (by rw [map_fst_alAdd]; exact hmem),
            alGet_alAdd_ne _ hta, if_neg hta, if_neg hta,
            if_neg hbbs, if_pos (List.mem_cons_self b bs)]
        omega
      · rw [alGet_alAdd_ne _ htb, alGet_alAdd_ne _ hta, if_neg hta, if_neg hta]
        by_cases htbs : t ∈ bs
        · rw [if_pos htbs, if_pos (List.mem_cons_of_mem b htbs)]
        · rw [if_neg htbs, if_neg (by simp [htb, htbs])]

/-- A team absent from the remaining id list is not touched by the pair
loops. -/
theorem alGet_h2hPairsFold_notmem (fx : List Fixture) (sid : Nat)
    (l : List Nat) (acc : List (Nat × Int)) (t : Nat) (hnt : t ∉ l) :
    alGet (h2hPairsFold fx sid l acc) t 0 = alGet acc t 0 := by
  induction l generalizing acc with
  | nil => rfl
  | cons a rest ih =>
    have hta : t ≠ a := fun h => hnt (h ▸ List.mem_cons_self a rest)
    have htr : t ∉ rest := fun h => hnt (List.mem_cons_of_mem a h)
    rw [h2hPairsFold, ih _ htr, alGet_h2hInner_notmem fx sid a rest acc t hta htr]

/-- The pair double loop accumulates, for each participating team, its
head-to-head points against every other team of the group. -/
theorem alGet_h2hPairsFold (fx : List Fixture) (sid : Nat)
    (l : List Nat) (acc : List (Nat × Int)) (t : Nat)
    (hnd : l.Nodup) (htl : t ∈ l) (hkeys : ∀ x ∈ l, x ∈ acc.map Prod.fst) :
    alGet (h2hPairsFold fx sid l acc) t 0
      = alGet acc t 0 + claimH2hSum fx sid l t := by
  induction l generalizing acc with
  | nil => simp at htl
  | cons a rest ih =>
    have hanr : a ∉ rest := (List.nodup_cons.mp hnd).1
    have hndr : rest.Nodup := (List.nodup_cons.mp hnd).2
    have hmema : t ∈ acc.map Prod.fst := hkeys t htl
    rw [h2hPairsFold]
    by_cases hta : t = a
    · subst hta
      rw [alGet_h2hPairsFold_notmem fx sid rest _ t hanr]
      rw [alGet_h2hInner fx sid t rest acc t hmema hanr hndr]
      rw [if_pos rfl, claimH2hSum_cons_self fx sid hanr]
    · have htrest : t ∈ rest := by
        rcases List.mem_cons.mp htl with h | h
        · exact absurd h hta
        · exact h
      rw [ih _ hndr htrest (fun x hx => by
        rw [map_fst_h2hInner]
        exact hkeys x (List.mem_cons_of_mem a hx))]
      rw [alGet_h2hInner fx sid a rest acc t hmema hanr hndr]
      rw [if_neg hta, if_pos htrest,
        claimH2hSum_cons_ne fx sid rest (fun h => hta h.symm)]
      omega

/-- Looking up the zero-seeded dict gives zero. -/
theorem alGet_alInit0 (ids : List Nat) (t : Nat) : alGet (alInit0 ids) t 0 = 0 := by
  unfold alInit0
  induction dedupFirst ids with
  | nil => rfl
  | cons x xs ih =>
    rw [List.map_cons, alGet_cons]
    by_cases h : x = t <;> simp [h, ih]

/-- The keys of the zero-seeded dict are the deduplicated ids. -/
theorem map_fst_alInit0 (ids : List Nat) :
    (alInit0 ids).map Prod.fst = dedupFirst ids := by
  unfold alInit0
  rw [List.map_map]
  exact List.map_id _

/-- Short lists are vacuously pairwise ordered. -/
theorem pairwise_of_length_le_one {α : Type} {R : α → α → Prop} {l : List α}
    (h : l.length ≤ 1) : l.Pairwise R := by
  cases l with
  | nil => exact List.Pairwise.nil
  | cons a t =>
    cases t with
    | nil => simp
    | cons b u => simp at h

/-- Flattening respects elementwise permutation of the chunks. -/
theorem flatten_map_perm {α β : Type} (f g : β → List α) (l : List β)
    (h : ∀ b ∈ l, (f b).Perm (g b)) :
    ((l.map f).flatten).Perm ((l.map g).flatten) := by
  induction l with
  | nil => exact List.Perm.refl _
  | cons b t ih =>
    rw [List.map_cons, List.map_cons, List.flatten_cons, List.flatten_cons]
    exact (h b (List.mem_cons_self b t)).append
      (ih (fun x hx => h x (List.mem_cons_of_mem b hx)))

/-- A tie chunk is a permutation of its match-points group. -/
theorem tieChunk_perm (fx : List Fixture) (sid : Nat) (rows : List StandRow) (mp : Int) :
    (tieChunk fx sid rows mp).Perm (rows.filter (fun r => r.matchPoints = mp)) := by
  simp only [tieChunk]
  split
  · exact List.Perm.refl _
  · exact pySortByKey_perm _ _

/-- Grouping a list by its distinct match-points values and flattening is a
permutation of the list. -/
theorem flatten_groups_perm :
    ∀ (mps : List Int) (rows : List StandRow), mps.Nodup →
    (∀ r ∈ rows, r.matchPoints ∈ mps) →
    ((mps.map (fun mp => rows.filter (fun r => r.matchPoints = mp))).flatten).Perm rows := by
  intro mps
  induction mps with
  | nil =>
    intro rows _ hcov
    have hnil : rows = [] := by
      cases rows with
      | nil => rfl
      | cons r t => exact absurd (hcov r (List.mem_cons_self r t)) (List.not_mem_nil _)
    simp [hnil]
  | cons m ms ih =>
    intro rows hnd hcov
    rw [List.map_cons, List.flatten_cons]
    have hmnotin : m ∉ ms := (List.nodup_cons.mp hnd).1
    have hmap : ms.map (fun mp => rows.filter (fun r => r.matchPoints = mp))
        = ms.map (fun mp => (rows.filter (fun r => !(decide (r.matchPoints = m)))).filter
            (fun r => r.matchPoints = mp)) := by
      apply List.map_congr_left
      intro m' hm'
      have hne : m' ≠ m := fun h => hmnotin (h ▸ hm')
      rw [List.filter_filter]
      apply List.filter_congr
      intro r _
      by_cases h : r.matchPoints = m'
      · simp [h, hne]
      · simp [h]
    rw [hmap]
    have ihh := ih (rows.filter (fun r => !(decide (r.matchPoints = m))))
      (List.nodup_cons.mp hnd).2
      (fun r hr => by
        have hne := (List.mem_filter.mp hr).2
        have hmem := hcov r (List.mem_filter.mp hr).1
        rcases List.mem_cons.mp hmem with h | h
        · exfalso
          rw [h] at hne
          simp at hne
        · exact h)
    exact (ihh.append_left _).trans (List.filter_append_perm _ rows)

/-- The ordering demanded by the tie-break claim: strictly higher
match_points first; within identical match_points, higher head-to-head sum
(computed against the other teams of that match-points group only), then
higher total_points, then lowered name ascending. -/
def claimTieOrder (fixtures : List Fixture) (sid : Nat) (rows : List StandRow)
    (x y : StandRow) : Prop :=
  y.matchPoints < x.matchPoints ∨
  (x.matchPoints = y.matchPoints ∧
    (claimH2hSum fixtures sid
        ((rows.filter (fun r => r.matchPoints = x.matchPoints)).map (fun r => r.teamId)) y.teamId
       < claimH2hSum fixtures sid
        ((rows.filter (fun r => r.matchPoints = x.matchPoints)).map (fun r => r.teamId)) x.teamId ∨
     (claimH2hSum fixtures sid
        ((rows.filter (fun r => r.matchPoints = x.matchPoints)).map (fun r => r.teamId)) x.teamId
       = claimH2hSum fixtures sid
        ((rows.filter (fun r => r.matchPoints = x.matchPoints)).map (fun r => r.teamId)) y.teamId ∧
       (y.totalPoints < x.totalPoints ∨
        (x.totalPoints = y.totalPoints ∧
          pyLowerCodes x.teamName ≤ pyLowerCodes y.teamName)))))

/-- Inside one match-points group, the Python sort key order implies the
claim's tie order. -/
theorem standKey_le_claimTieOrder (fx : List Fixture) (sid : Nat)
    (rows : List StandRow) (hnodup : (rows.map (fun r => r.teamId)).Nodup)
    (mp : Int) (x y : StandRow)
    (hx : x ∈ rows.filter (fun r => r.matchPoints = mp))
    (hy : y ∈ rows.filter (fun r => r.matchPoints = mp))
    (hkey : standKey (h2hPairsFold fx sid
        ((rows.filter (fun r => r.matchPoints = mp)).map (fun r => r.teamId))
        (alInit0 ((rows.filter (fun r => r.matchPoints = mp)).map (fun r => r.teamId)))) x
      ≤ standKey (h2hPairsFold fx sid
        ((rows.filter (fun r => r.matchPoints = mp)).map (fun r => r.teamId))
        (alInit0 ((rows.filter (fun r => r.matchPoints = mp)).map (fun r => r.teamId)))) y) :
    claimTieOrder fx sid rows x y := by
  have hxmp : x.matchPoints = mp := by
    have := (List.mem_filter.mp hx).2
    simpa using this
  have hymp : y.matchPoints = mp := by
    have := (List.mem_filter.mp hy).2
    simpa using this
  set ids := (rows.filter (fun r => r.matchPoints = mp)).map (fun r => r.teamId) with hids
  have hidsnd : ids.Nodup :=
    hnodup.sublist (List.Sublist.map _ (List.filter_sublist rows))
  have hxid : x.teamId ∈ ids := List.mem_map.mpr ⟨x, hx, rfl⟩
  have hyid : y.teamId ∈ ids := List.mem_map.mpr ⟨y, hy, rfl⟩
  have hkeys : ∀ z ∈ ids, z ∈ (alInit0 ids).map Prod.fst := by
    intro z hz
    rw [map_fst_alInit0]
    exact mem_dedupFirst.mpr hz
  have hgx : alGet (h2hPairsFold fx sid ids (alInit0 ids)) x.teamId 0
      = claimH2hSum fx sid ids x.teamId := by
    rw [alGet_h2hPairsFold fx sid ids _ _ hidsnd hxid hkeys, alGet_alInit0]
    omega
  have hgy : alGet (h2hPairsFold fx sid ids (alInit0 ids)) y.teamId 0
      = claimH2hSum fx sid ids y.teamId := by
    rw [alGet_h2hPairsFold fx sid ids _ _ hidsnd hyid hkeys, alGet_alInit0]
    omega
  have hgroup : rows.filter (fun r => r.matchPoints = x.matchPoints)
      = rows.filter (fun r => r.matchPoints = mp) := by rw [hxmp]
  unfold claimTieOrder
  rw [hgroup, ← hids]
  right
  refine ⟨by rw [hxmp, hymp], ?_⟩
  unfold standKey at hkey
  rw [Prod.Lex.le_iff] at hkey
  rcases hkey with h1 | ⟨h1, hkey⟩
  · exfalso
    rw [hxmp, hymp] at h1
    omega
  · rw [Prod.Lex.le_iff] at hkey
    rcases hkey with h2 | ⟨h2, hkey⟩
    · left
      rw [hgx, hgy] at h2
      omega
    · right
      rw [hgx, hgy] at h2
      refine ⟨by omega, ?_⟩
      rw [Prod.Lex.le_iff] at hkey
      rcases hkey with h3 | ⟨h3, hkey⟩
      · left
        omega
      · right
        exact ⟨by omega, hkey⟩

/-- C7: sort_standings_with_h2h permutes its rows; in the output, any row
precedes another exactly per the claim: strictly higher match_points first,
and within a match-points group (head-to-head sum within the group desc,
total_points desc, name asc). Team ids are assumed distinct across rows,
as standings hold one row per team. -/
theorem sort_standings_with_h2h_spec (fx : List Fixture) (sid : Nat)
    (rows : List StandRow) (hnodup : (rows.map (fun r => r.teamId)).Nodup) :
    (sort_standings_with_h2h fx sid rows).Perm rows ∧
    (sort_standings_with_h2h fx sid rows).Pairwise (claimTieOrder fx sid rows) := by
  simp only [sort_standings_with_h2h]
  set mps := pySortByKey (fun m : Int => -m) (dedupFirst (rows.map (fun r => r.matchPoints))) with hmps
  have hperm0 : mps.Perm (dedupFirst (rows.map (fun r => r.matchPoints))) :=
    pySortByKey_perm _ _
  have hmpsnd : mps.Nodup := hperm0.nodup_iff.mpr (nodup_dedupFirst _)
  have hcov : ∀ r ∈ rows, r.matchPoints ∈ mps := fun r hr =>
    hperm0.mem_iff.mpr (mem_dedupFirst.mpr (List.mem_map.mpr ⟨r, hr, rfl⟩))
  constructor
  · exact (flatten_map_perm _ _ mps (fun mp _ => tieChunk_perm fx sid rows mp)).trans
      (flatten_groups_perm mps rows hmpsnd hcov)
  · rw [List.pairwise_flatten]
    constructor
    · intro l hl
      rcases List.mem_map.mp hl with ⟨mp, _, rfl⟩
      simp only [tieChunk]
      split
      · exact pairwise_of_length_le_one (by assumption)
      · refine List.Pairwise.imp_of_mem ?_
          (pySortByKey_pairwise (standKey (h2hPairsFold fx sid
            ((rows.filter (fun r => r.matchPoints = mp)).map (fun r => r.teamId))
            (alInit0 ((rows.filter (fun r => r.matchPoints = mp)).map (fun r => r.teamId)))))
            (rows.filter (fun r => r.matchPoints = mp)))
        intro a b ha hb hab
        exact standKey_le_claimTieOrder fx sid rows hnodup mp a b
          ((pySortByKey_perm _ _).subset ha) ((pySortByKey_perm _ _).subset hb) hab
    · rw [List.pairwise_map]
      have hp1 : mps.Pairwise (fun a b : Int => -a ≤ -b) :=
        pySortByKey_pairwise (fun m : Int => -m) _
      have hp := hp1.and hmpsnd
      refine hp.imp ?_
      intro m1 m2 hm x hx y hy
      have hxg := (tieChunk_perm fx sid rows m1).subset hx
      have hyg := (tieChunk_perm fx sid rows m2).subset hy
      have hx1 : x.matchPoints = m1 := by
        have := (List.mem_filter.mp hxg).2
        simpa using this
      have hy2 : y.matchPoints = m2 := by
        have := (List.mem_filter.mp hyg).2
        simpa using this
      left
      rw [hx1, hy2]
      rcases hm with ⟨hle, hne⟩
      omega

/-- Witness for C7: three rows tied on match points, no fixtures needed for
the hypothesis; the sorted output satisfies the claim ordering. -/
theorem sort_standings_with_h2h_spec_witness :
    (([{ teamId := 1, matchPoints := 6, totalPoints := 50, teamName := "Alpha" },
       { teamId := 2, matchPoints := 6, totalPoints := 40, teamName := "Beta" },
       { teamId := 3, matchPoints := 3, totalPoints := 30, teamName := "Gamma" }] :
        List StandRow).map (fun r => r.teamId)).Nodup ∧
    ((sort_standings_with_h2h sampleDB.fixtures 10
        [{ teamId := 1, matchPoints := 6, totalPoints := 50, teamName := "Alpha" },
         { teamId := 2, matchPoints := 6, totalPoints := 40, teamName := "Beta" },
         { teamId := 3, matchPoints := 3, totalPoints := 30, teamName := "Gamma" }]).Perm
        [{ teamId := 1, matchPoints := 6, totalPoints := 50, teamName := "Alpha" },
         { teamId := 2, matchPoints := 6, totalPoints := 40, teamName := "Beta" },
         { teamId := 3, matchPoints := 3, totalPoints := 30, teamName := "Gamma" }] ∧
     (sort_standings_with_h2h sampleDB.fixtures 10
        [{ teamId := 1, matchPoints := 6, totalPoints := 50, teamName := "Alpha" },
         { teamId := 2, matchPoints := 6, totalPoints := 40, teamName := "Beta" },
         { teamId := 3, matchPoints := 3, totalPoints := 30, teamName := "Gamma" }]).Pairwise
        (claimTieOrder sampleDB.fixtures 10
          [{ teamId := 1, matchPoints := 6, totalPoints := 50, teamName := "Alpha" },
           { teamId := 2, matchPoints := 6, totalPoints := 40, teamName := "Beta" },
           { teamId := 3, matchPoints := 3, totalPoints := 30, teamName := "Gamma" }])) :=
  ⟨by decide,
    sort_standings_with_h2h_spec sampleDB.fixtures 10
      [{ teamId := 1, matchPoints := 6, totalPoints := 50, teamName := "Alpha" },
       { teamId := 2, matchPoints := 6, totalPoints := 40, teamName := "Beta" },
       { teamId := 3, matchPoints := 3, totalPoints := 30, teamName := "Gamma" }] (by decide)⟩

/-! The Membership Resolver's transfer application
(services.apply_transfer_memberships and models.TeamMembership.clean). -/

/-- models._windows_overlap: two membership windows overlap unless one ends
strictly before the other starts; a null end behaves as an unbounded
window (datetime.max in the source). -/
def windowsOverlap (aS : Int) (aE : Option Int) (bS : Int) (bE : Option Int) : Bool :=
  !((match aE with | some e => decide (e < bS) | none => false) ||
    (match bE with | some e => decide (e < aS) | none => false))

/-- models.TeamMembership.clean (as run by full_clean before each save):
window within the season, end not before start, no overlap with another
membership of the same player and season (excluding the row itself when it
is an update), and at most 3 open memberships per team and season. -/
def membershipClean (seasons : List Season) (memberships : List TeamMembership)
    (m : TeamMembership) (excludeId : Option Nat) : Except String Unit :=
  match seasons.find? (fun s => s.id = m.seasonId) with
  | none => .error "Season matching query does not exist."
  | some season =>
    if m.startDate < season.startDate ∨ season.endDate < m.startDate then
      .error "Membership start_date must be within the season."
    else if ((match m.endDate with
        | some e => decide (e < season.startDate) || decide (season.endDate < e)
        | none => false) : Bool) then
      .error "Membership end_date must be within the season."
    else if ((match m.endDate with
        | some e => decide (e < m.startDate)
        | none => false) : Bool) then
      .error "end_date cannot be before start_date."
    else if (memberships.filter (fun o =>
          o.seasonId == m.seasonId && o.playerId == m.playerId &&
          (match excludeId with | some i => !(o.id == i) | none => true))).any
        (fun o => windowsOverlap m.startDate m.endDate o.startDate o.endDate) then
      .error "Player has overlapping membership in this season."
    else if ((match m.endDate with
        | none => decide (3 ≤ (memberships.filter (fun o =>
            o.seasonId == m.seasonId && o.teamId == m.teamId && o.endDate == none &&
            (match excludeId with | some i => !(o.id == i) | none => true))).length)
        | some _ => false) : Bool) then
      .error "Team already has 3 active members for this season."
    else .ok ()

/-- Surrogate primary key for a newly inserted membership row. -/
def nextMembershipId (memberships : List TeamMembership) : Nat :=
  (memberships.map (fun m => m.id)).foldr max 0 + 1

/-- services.apply_transfer_memberships: closes the player's currently open
membership of the season (end_date = start_date when the transfer date is
not after the window start, else transfer date minus one day), then opens
an unbounded membership at to_team from the transfer date; each write is
validated by TeamMembership.clean, and any ValidationError rolls the
transaction back (.error carries no state). -/
def apply_transfer_memberships (db : DB) (transferId : Nat) : Except String DB :=
  match db.transfers.find? (fun t => t.id = transferId) with
  | none => .error "Transfer matching query does not exist."
  | some tr =>
    let step1 : Except String (List TeamMembership) :=
      match db.memberships.find? (fun m =>
          m.seasonId == tr.seasonId && m.playerId == tr.playerId && m.endDate == none) with
      | none => .ok db.memberships
      | some active =>
        let eClose : Int := if tr.date ≤ active.startDate then active.startDate else tr.date - 1
        let closed := { active with endDate := some eClose }
        match membershipClean db.seasons db.memberships closed (some active.id) with
        | .error e => .error e
        | .ok _ => .ok (db.memberships.map (fun m => if m.id = active.id then closed else m))
    match step1 with
    | .error e => .error e
    | .ok ms1 =>
      let mem : TeamMembership :=
        { id := nextMembershipId db.memberships, seasonId := tr.seasonId
          teamId := tr.toTeamId, playerId := tr.playerId
          startDate := tr.date, endDate := none }
      match membershipClean db.seasons ms1 mem none with
      | .error e => .error e
      | .ok _ => .ok { db with memberships := ms1 ++ [mem] }

/-- Consequences of a clean that passed: no overlapping membership of the
same player and season, and (when opening an unbounded window) fewer than 3
open memberships of the destination team. -/
theorem membershipClean_ok (seasons : List Season) (mems : List TeamMembership)
    (m : TeamMembership) (excl : Option Nat) (u : Unit)
    (h : membershipClean seasons mems m excl = .ok u) :
    ((mems.filter (fun o => o.seasonId == m.seasonId && o.playerId == m.playerId &&
        (match excl with | some i => !(o.id == i) | none => true))).any
      (fun o => windowsOverlap m.startDate m.endDate o.startDate o.endDate)) = false ∧
    (m.endDate = none → (mems.filter (fun o =>
        o.seasonId == m.seasonId && o.teamId == m.teamId && o.endDate == none &&
        (match excl with | some i => !(o.id == i) | none => true))).length < 3) := by
  cases hfind : seasons.find? (fun s => s.id = m.seasonId) with
  | none =>
    simp only [membershipClean, hfind] at h
    exact absurd h (by simp)
  | some season =>
    simp only [membershipClean, hfind] at h
    split_ifs at h with h1 h2 h3 h4 h5
    · refine ⟨Bool.eq_false_iff.mpr h4, ?_⟩
      intro hend
      rw [hend] at h5
      simpa using h5

/-- C8: for a transfer whose player has an open membership in the season,
apply_transfer_memberships closes that membership with end_date =
transfer date minus one day when the transfer date is strictly after the
window start and with end_date = start_date otherwise, then creates an
open membership at to_team starting on the transfer date; and whenever the
resulting windows would overlap another membership of the same player and
season, or the destination team would exceed 3 open memberships, a
ValidationError is raised and no change is persisted (the .error outcome
carries no state, modelling the transaction rollback). -/
theorem apply_transfer_memberships_spec (db : DB) (tid : Nat) (tr : Transfer)
    (active : TeamMembership) (eClose : Int) (closed newMem : TeamMembership)
    (htr : db.transfers.find? (fun t => t.id = tid) = some tr)
    (hact : db.memberships.find? (fun m =>
        m.seasonId == tr.seasonId && m.playerId == tr.playerId && m.endDate == none) = some active)
    (heq : eClose = if active.startDate < tr.date then tr.date - 1 else active.startDate)
    (hclosed : closed = { active with endDate := some eClose })
    (hnew : newMem = { id := nextMembershipId db.memberships, seasonId := tr.seasonId,
                       teamId := tr.toTeamId, playerId := tr.playerId,
                       startDate := tr.date, endDate := none }) :
    (∀ db', apply_transfer_memberships db tid = .ok db' →
       db'.memberships
         = db.memberships.map (fun m => if m.id = active.id then closed else m) ++ [newMem]) ∧
    (((∃ o ∈ db.memberships, o.id ≠ active.id ∧ o.seasonId = tr.seasonId ∧
          o.playerId = tr.playerId ∧
          windowsOverlap active.startDate (some eClose) o.startDate o.endDate = true) ∨
      (∃ o ∈ db.memberships.map (fun m => if m.id = active.id then closed else m),
          o.seasonId = tr.seasonId ∧ o.playerId = tr.playerId ∧
          windowsOverlap tr.date none o.startDate o.endDate = true) ∨
      3 ≤ ((db.memberships.map (fun m => if m.id = active.id then closed else m)).filter
          (fun o => o.seasonId == tr.seasonId && o.teamId == tr.toTeamId &&
            o.endDate == none)).length) →
      ∃ e, apply_transfer_memberships db tid = .error e) := by
  have hpred := List.find?_some hact
  have hseason : active.seasonId = tr.seasonId := by
    simp only [Bool.and_eq_true, beq_iff_eq] at hpred
    exact hpred.1.1
  have hplayer : active.playerId = tr.playerId := by
    simp only [Bool.and_eq_true, beq_iff_eq] at hpred
    exact hpred.1.2
  have hsrc : (if tr.date ≤ active.startDate then active.startDate else tr.date - 1) = eClose := by
    rw [heq]
    by_cases h : tr.date ≤ active.startDate
    · rw [if_pos h, if_neg (by omega)]
    · rw [if_neg h, if_pos (by omega)]
  have happly : apply_transfer_memberships db tid =
      (match membershipClean db.seasons db.memberships closed (some active.id) with
       | .error e => .error e
       | .ok _ =>
         match membershipClean db.seasons
             (db.memberships.map (fun m => if m.id = active.id then closed else m)) newMem none with
         | .error e => .error e
         | .ok _ => .ok { db with memberships := (db.memberships.map (fun m => if m.id = active.id then closed else m) ++ [newMem]) }) := by
    simp only [apply_transfer_memberships, htr, hact, hsrc, ← hclosed, ← hnew]
    cases membershipClean db.seasons db.memberships closed (some active.id) <;> rfl
  constructor
  · intro db' hok
    rw [happly] at hok
    cases h1 : membershipClean db.seasons db.memberships closed (some active.id) with
    | error e => rw [h1] at hok; exact absurd hok (by simp)
    | ok u1 =>
      rw [h1] at hok
      cases h2 : membershipClean db.seasons
          (db.memberships.map (fun m => if m.id = active.id then closed else m)) newMem none with
      | error e => rw [h2] at hok; exact absurd hok (by simp)
      | ok u2 =>
        rw [h2] at hok
        have := Except.ok.inj hok
        rw [← this]
  · intro hcond
    cases h1 : membershipClean db.seasons db.memberships closed (some active.id) with
    | error e => exact ⟨e, by rw [happly, h1]⟩
    | ok u1 =>
      cases h2 : membershipClean db.seasons
          (db.memberships.map (fun m => if m.id = active.id then closed else m)) newMem none with
      | error e => exact ⟨e, by rw [happly, h1, h2]⟩
      | ok u2 =>
        exfalso
        have hc1 := membershipClean_ok db.seasons db.memberships closed (some active.id) u1 h1
        have hc2 := membershipClean_ok db.seasons
          (db.memberships.map (fun m => if m.id = active.id then closed else m)) newMem none u2 h2
        rcases hcond with ⟨o, ho, hone, hos, hop, hov⟩ | ⟨o, ho, hos, hop, hov⟩ | hlim
        · -- the closed window overlaps another membership: first clean must have failed
          have hmemf : o ∈ db.memberships.filter (fun o =>
              o.seasonId == closed.seasonId && o.playerId == closed.playerId &&
              (match (some active.id : Option Nat) with
               | some i => !(o.id == i) | none => true)) := by
            rw [List.mem_filter]
            refine ⟨ho, ?_⟩
            simp only [hclosed, Bool.and_eq_true, beq_iff_eq]
            exact ⟨⟨by rw [hos, hseason], by rw [hop, hplayer]⟩, by simpa using hone⟩
          have hany : (db.memberships.filter (fun o =>
              o.seasonId == closed.seasonId && o.playerId == closed.playerId &&
              (match (some active.id : Option Nat) with
               | some i => !(o.id == i) | none => true))).any
              (fun o => windowsOverlap closed.startDate closed.endDate o.startDate o.endDate) = true := by
            rw [List.any_eq_true]
            refine ⟨o, hmemf, ?_⟩
            rw [hclosed]
            exact hov
          rw [hc1.1] at hany
          exact absurd hany (by simp)
        · -- the new open window overlaps a (possibly just closed) membership
          have hmemf : o ∈ (db.memberships.map (fun m => if m.id = active.id then closed else m)).filter
              (fun o => o.seasonId == newMem.seasonId && o.playerId == newMem.playerId &&
                (match (none : Option Nat) with | some i => !(o.id == i) | none => true)) := by
            rw [List.mem_filter]
            refine ⟨ho, ?_⟩
            simp only [hnew, Bool.and_eq_true, beq_iff_eq, Bool.and_true]
            exact ⟨hos, hop⟩
          have hany : ((db.memberships.map (fun m => if m.id = active.id then closed else m)).filter
              (fun o => o.seasonId == newMem.seasonId && o.playerId == newMem.playerId &&
                (match (none : Option Nat) with | some i => !(o.id == i) | none => true))).any
              (fun o => windowsOverlap newMem.startDate newMem.endDate o.startDate o.endDate) = true := by
            rw [List.any_eq_true]
            refine ⟨o, hmemf, ?_⟩
            rw [hnew]
            exact hov
          rw [hc2.1] at hany
          exact absurd hany (by simp)
        · -- the destination team would exceed 3 open memberships
          have hend : newMem.endDate = none := by rw [hnew]
          have hlt := hc2.2 hend
          have hsame : ((db.memberships.map (fun m => if m.id = active.id then closed else m)).filter
              (fun o => o.seasonId == newMem.seasonId && o.teamId == newMem.teamId &&
                o.endDate == none &&
                (match (none : Option Nat) with | some i => !(o.id == i) | none => true)))
              = ((db.memberships.map (fun m => if m.id = active.id then closed else m)).filter
              (fun o => o.seasonId == tr.seasonId && o.teamId == tr.toTeamId &&
                o.endDate == none)) := by
            apply List.filter_congr
            intro x _
            simp only [hnew, Bool.and_true]
          rw [hsame] at hlt
          omega

/-- Sample database with a pending transfer: player 1 moves to team 3 on
day 20 of the season. -/
def dbTransfer : DB :=
  { sampleDB with
    teams := [{ id := 1, name := "Alpha" }, { id := 2, name := "Beta" },
              { id := 3, name := "Gamma" }]
    transfers := [{ id := 500, seasonId := 1, playerId := 1, toTeamId := 3, date := 20 }] }

/-- Witness for C8 at the sample transfer: the open membership of player 1
starts on day 0, before the transfer date 20. -/
theorem apply_transfer_memberships_spec_witness :
    (dbTransfer.transfers.find? (fun t => t.id = 500)
       = some { id := 500, seasonId := 1, playerId := 1, toTeamId := 3, date := 20 } ∧
     dbTransfer.memberships.find? (fun m =>
        m.seasonId == 1 && m.playerId == 1 && m.endDate == none)
       = some { id := 1, seasonId := 1, teamId := 1, playerId := 1, startDate := 0, endDate := none } ∧
     (19 : Int) = if (0 : Int) < 20 then 20 - 1 else 0) ∧
    ((∀ db', apply_transfer_memberships dbTransfer 500 = .ok db' →
       db'.memberships
         = dbTransfer.memberships.map (fun m => if m.id = 1 then
             { id := 1, seasonId := 1, teamId := 1, playerId := 1, startDate := 0, endDate := some 19 } else m)
           ++ [{ id := 7, seasonId := 1, teamId := 3, playerId := 1, startDate := 20, endDate := none }]) ∧
    (((∃ o ∈ dbTransfer.memberships, o.id ≠ 1 ∧ o.seasonId = 1 ∧
          o.playerId = 1 ∧
          windowsOverlap 0 (some 19) o.startDate o.endDate = true) ∨
      (∃ o ∈ dbTransfer.memberships.map (fun m => if m.id = 1 then
             { id := 1, seasonId := 1, teamId := 1, playerId := 1, startDate := 0, endDate := some 19 } else m),
          o.seasonId = 1 ∧ o.playerId = 1 ∧
          windowsOverlap 20 none o.startDate o.endDate = true) ∨
      3 ≤ ((dbTransfer.memberships.map (fun m => if m.id = 1 then
             { id := 1, seasonId := 1, teamId := 1, playerId := 1, startDate := 0, endDate := some 19 } else m)).filter
          (fun o => o.seasonId == 1 && o.teamId == 3 &&
            o.endDate == none)).length) →
      ∃ e, apply_transfer_memberships dbTransfer 500 = .error e)) :=
  ⟨⟨by decide, by decide, by decide⟩,
    apply_transfer_memberships_spec dbTransfer 500
      { id := 500, seasonId := 1, playerId := 1, toTeamId := 3, date := 20 }
      { id := 1, seasonId := 1, teamId := 1, playerId := 1, startDate := 0, endDate := none }
      19
      { id := 1, seasonId := 1, teamId := 1, playerId := 1, startDate := 0, endDate := some 19 }
      { id := 7, seasonId := 1, teamId := 3, playerId := 1, startDate := 20, endDate := none }
      (by decide) (by decide) (by decide) (by decide) (by decide)⟩

/-! The Team/Player Aggregator (services._team_form_last5,
compute_team_rows, compute_player_rows). -/

/-- The played fixtures of a scope (Fixture.objects.filter(scope=scope,
is_played=True)). -/
def playedFixturesOfScope (fixtures : List Fixture) (sid : Nat) : List Fixture :=
  fixtures.filter (fun f => f.scopeId == sid && f.isPlayed)

/-- services._team_form_last5: the 5 most recent played fixtures of the
team in the scope, most recent kickoff first, encoded W (match points 3),
D (1) or L. The source joins the letters with commas into one string and
its consumers split that string again; the embedding carries the list of
letters, which the join/split round trip preserves. -/
def formLettersLast5 (fixtures : List Fixture) (sid tid : Nat) : List String :=
  ((pySortByKey (fun f : Fixture => -f.kickoffAt)
      ((playedFixturesOfScope fixtures sid).filter
        (fun f => f.homeTeamId == tid || f.awayTeamId == tid))).take 5).map
    (fun f =>
      let mp := if f.homeTeamId = tid then f.homeMatchPoints else f.awayMatchPoints
      if mp = 3 then "W" else if mp = 1 then "D" else "L")

/-- One team's accumulator inside compute_team_rows (the per-team stats
dict). -/
structure TeamAgg where
  played : Nat
  wins : Nat
  draws : Nat
  losses : Nat
  mp : Int
  tp : Int
deriving DecidableEq, Repr

/-- Point update of an association list by a function on the value. -/
def alModify {α : Type} (l : List (Nat × α)) (k : Nat) (g : α → α) : List (Nat × α) :=
  l.map (fun p => if p.1 = k then (p.1, g p.2) else p)

/-- The home team's accumulator update for one played fixture. -/
def fixtureHomeUpd (f : Fixture) (h : TeamAgg) : TeamAgg :=
  let h1 := { h with played := h.played + 1, tp := h.tp + f.homeTotalPoints,
                     mp := h.mp + f.homeMatchPoints }
  if f.homeMatchPoints = 3 then { h1 with wins := h1.wins + 1 }
  else if f.homeMatchPoints = 0 then { h1 with losses := h1.losses + 1 }
  else { h1 with draws := h1.draws + 1 }

/-- The away team's accumulator update for one played fixture. -/
def fixtureAwayUpd (f : Fixture) (a : TeamAgg) : TeamAgg :=
  let a1 := { a with played := a.played + 1, tp := a.tp + f.awayTotalPoints,
                     mp := a.mp + f.awayMatchPoints }
  if f.homeMatchPoints = 3 then { a1 with losses := a1.losses + 1 }
  else if f.homeMatchPoints = 0 then { a1 with wins := a1.wins + 1 }
  else { a1 with draws := a1.draws + 1 }

/-- Name lookup with the source's (names.get(...) or "") fallback. -/
def teamNameOf (teams : List Team) (tid : Nat) : String :=
  match teams.find? (fun t => t.id = tid) with
  | some t => t.name
  | none => ""

/-- Name lookup for players. -/
def playerNameOf (players : List Player) (pid : Nat) : String :=
  match players.find? (fun p => p.id = pid) with
  | some p => p.name
  | none => ""

/-- services.compute_team_rows: accumulate played/wins/draws/losses, match
points and total points per team over the played fixtures of the scope,
attach the form, and sort by (-match_points, -total_points, lowered name).
The source collects the team ids into a Python set; the embedding uses
first-occurrence order, which only fixes the order of rows that tie on the
whole sort key. -/
def compute_team_rows (teams : List Team) (fixtures : List Fixture) (sid : Nat) :
    List TeamStanding :=
  let played := playedFixturesOfScope fixtures sid
  let teamIds := dedupFirst (played.map (fun f => f.homeTeamId)
    ++ played.map (fun f => f.awayTeamId))
  let stats := played.foldl
    (fun st f => alModify (alModify st f.homeTeamId (fixtureHomeUpd f))
      f.awayTeamId (fixtureAwayUpd f))
    (teamIds.map (fun t => (t, ({ played := 0, wins := 0, draws := 0, losses := 0,
                                  mp := 0, tp := 0 } : TeamAgg))))
  let rows := stats.map (fun p =>
    ({ scopeId := sid, teamId := p.1, played := p.2.played, wins := p.2.wins,
       draws := p.2.draws, losses := p.2.losses, matchPoints := p.2.mp,
       totalPoints := p.2.tp,
       formLast5 := formLettersLast5 fixtures sid p.1 } : TeamStanding))
  pySortByKey (fun r => toLex (-r.matchPoints,
    toLex (-r.totalPoints, pyLowerCodes (teamNameOf teams r.teamId)))) rows

/-- The fixture a result belongs to. -/
def resultFixture (fixtures : List Fixture) (results : List Result) (resId : Nat) :
    Option Fixture :=
  match results.find? (fun r => r.id = resId) with
  | none => none
  | some r => fixtures.find? (fun f => f.id = r.fixtureId)

/-- The (player, fixture) pairs of the score rows over played fixtures of
the scope, in table order (the grouping keys of compute_player_rows). -/
def scopePlayedPairs (fixtures : List Fixture) (results : List Result)
    (scores : List PlayerScore) (sid : Nat) : List (Nat × Nat) :=
  scores.filterMap (fun s =>
    match resultFixture fixtures results s.resultId with
    | some f => if f.scopeId == sid && f.isPlayed then some (s.playerId, f.id) else none
    | none => none)

/-- The summed points of one player in one fixture (the Sum annotation of
the grouped query). -/
def playerPointsInFixture (results : List Result) (scores : List PlayerScore)
    (pid fid : Nat) : Int :=
  ((scores.filter (fun s => s.playerId == pid &&
      (match results.find? (fun r => r.id = s.resultId) with
       | some r => r.fixtureId == fid
       | none => false))).map (fun s => s.points)).sum

/-- services.compute_player_rows: group scores by player and fixture,
compute per player the number of fixtures, total, best single fixture,
exact mean, and sample variance (n-1 divisor, zero when n < 2; the source
persists its square root), and sort by (-total, -average, lowered name). -/
def compute_player_rows (players : List Player) (fixtures : List Fixture)
    (results : List Result) (scores : List PlayerScore) (sid : Nat) :
    List PlayerStanding :=
  let pairs := dedupFirst (scopePlayedPairs fixtures results scores sid)
  let pids := dedupFirst (pairs.map Prod.fst)
  let rows := pids.map (fun pid =>
    let ptsList := (pairs.filter (fun p => p.1 = pid)).map
      (fun p => playerPointsInFixture results scores pid p.2)
    let n := ptsList.length
    let total := ptsList.sum
    let best := listMaxD 0 ptsList
    let avg : ℚ := if n = 0 then 0 else (total : ℚ) / (n : ℚ)
    let var : ℚ := if 2 ≤ n
      then ((ptsList.map (fun x => ((x : ℚ) - avg) ^ 2)).sum) / ((n : ℚ) - 1)
      else 0
    ({ scopeId := sid, playerId := pid, matchesPlayed := n, totalPoints := total,
       bestMatchPoints := best, averagePoints := avg, stddevSq := var } : PlayerStanding))
  pySortByKey (fun r => toLex (-r.totalPoints,
    toLex (-r.averagePoints, pyLowerCodes (playerNameOf players r.playerId)))) rows

/-! The Records Engine (services.rebuild_records). -/

/-- The streak-tracking state of the records pass: per-team win and
unbeaten counters plus the best value either counter ever reached. -/
structure StreakState where
  winMap : List (Nat × Nat)
  unbMap : List (Nat × Nat)
  winBest : Nat
  unbBest : Nat
deriving DecidableEq, Repr

/-- Insert-or-update of a counter dict (setdefault followed by an
assignment in the source). -/
def alUpsert (l : List (Nat × Nat)) (k : Nat) (v : Nat) : List (Nat × Nat) :=
  if l.any (fun p => p.1 = k) then l.map (fun p => if p.1 = k then (p.1, v) else p)
  else l ++ [(k, v)]

/-- Counter lookup with the setdefault 0 of the source. -/
def streakGet (l : List (Nat × Nat)) (k : Nat) : Nat := alGet l k 0

/-- The update closure of rebuild_records: a win (match points 3) extends
both counters, a draw (1) resets the win counter and extends the unbeaten
counter, a loss resets both; both bests absorb the new counter values. -/
def streakUpd (st : StreakState) (team : Nat) (mp : Int) : StreakState :=
  let w1 := if mp = 3 then streakGet st.winMap team + 1 else 0
  let u1 := if mp = 3 ∨ mp = 1 then streakGet st.unbMap team + 1 else 0
  { winMap := alUpsert st.winMap team w1
    unbMap := alUpsert st.unbMap team u1
    winBest := max st.winBest w1
    unbBest := max st.unbBest u1 }

/-- The per-team steps of the records pass: for each played fixture in
kickoff order, the home team's match points then the away team's. -/
def recordSteps (played : List Fixture) : List (Nat × Int) :=
  played.flatMap (fun f =>
    [(f.homeTeamId, f.homeMatchPoints), (f.awayTeamId, f.awayMatchPoints)])

/-- The streak pass over the steps. -/
def streakFold (steps : List (Nat × Int)) : StreakState :=
  steps.foldl (fun st s => streakUpd st s.1 s.2)
    { winMap := [], unbMap := [], winBest := 0, unbBest := 0 }

/-- The non-streak running state of the records pass. -/
structure RecState where
  biggestMargin : Int
  biggestFixture : Option Nat
  highestTeamScore : Int
  highestTeamFixture : Option Nat
  highestTeam : Option Nat
  highestPlayerScore : Int
  highestPlayer : Option Nat
  highestPlayerFixture : Option Nat
deriving DecidableEq, Repr

/-- The top per-player points sum inside one fixture (the grouped query
ordered by -p, first row), none when the fixture has no result or the
result has no scores. Ties keep the earliest scored player, the order the
source's query returns being unspecified. -/
def topPlayerScoreInFixture (results : List Result) (scores : List PlayerScore)
    (f : Fixture) : Option (Nat × Int) :=
  match results.find? (fun r => r.fixtureId = f.id) with
  | none => none
  | some res =>
    let resScores := scoresOfResult scores res.id
    let pids := dedupFirst (resScores.map (fun s => s.playerId))
    let sums := pids.map (fun pid =>
      (pid, ((resScores.filter (fun s => s.playerId = pid)).map (fun s => s.points)).sum))
    match pySortByKey (fun pr : Nat × Int => -pr.2) sums with
    | [] => none
    | x :: _ => some x

/-- One fixture's contribution to the non-streak records (margin, highest
team score checked home then away, highest player score); strictly greater
values overwrite, ties keep the earlier record. -/
def recFixtureStep (results : List Result) (scores : List PlayerScore)
    (st : RecState) (f : Fixture) : RecState :=
  let margin := |f.homeTotalPoints - f.awayTotalPoints|
  let st1 := if st.biggestMargin < margin then
    { st with biggestMargin := margin, biggestFixture := some f.id } else st
  let st2 := if st1.highestTeamScore < f.homeTotalPoints then
    { st1 with highestTeamScore := f.homeTotalPoints,
               highestTeamFixture := some f.id, highestTeam := some f.homeTeamId } else st1
  let st3 := if st2.highestTeamScore < f.awayTotalPoints then
    { st2 with highestTeamScore := f.awayTotalPoints,
               highestTeamFixture := some f.id, highestTeam := some f.awayTeamId } else st2
  match topPlayerScoreInFixture results scores f with
  | none => st3
  | some ps =>
    if st3.highestPlayerScore < ps.2 then
      { st3 with highestPlayerScore := ps.2, highestPlayer := some ps.1,
                 highestPlayerFixture := some f.id }
    else st3

/-- services.rebuild_records as a pure function producing the snapshot row
of the scope: one ordered pass (kickoff ascending) over the played
fixtures; the streak counters are folded over the same fixtures in the
same order (the source interleaves the two independent state components
in one loop). -/
def recordsOfScopePure (fixtures : List Fixture) (results : List Result)
    (scores : List PlayerScore) (sid : Nat) : RecordSnapshot :=
  let played := pySortByKey (fun f : Fixture => f.kickoffAt)
    (playedFixturesOfScope fixtures sid)
  let base := played.foldl (recFixtureStep results scores)
    { biggestMargin := 0, biggestFixture := none, highestTeamScore := 0,
      highestTeamFixture := none, highestTeam := none, highestPlayerScore := 0,
      highestPlayer := none, highestPlayerFixture := none }
  let st := streakFold (recordSteps played)
  { scopeId := sid
    biggestWinMargin := base.biggestMargin
    biggestWinFixtureId := base.biggestFixture
    highestTeamMatchScore := base.highestTeamScore
    highestTeamMatchFixtureId := base.highestTeamFixture
    highestTeamMatchTeamId := base.highestTeam
    highestPlayerScore := base.highestPlayerScore
    highestPlayerId := base.highestPlayer
    highestPlayerScoreFixtureId := base.highestPlayerFixture
    longestWinStreak := st.winBest
    longestUnbeatenStreak := st.unbBest }

/-- services.rebuild_records on the records table: get_or_create the
scope's snapshot, then overwrite every field. -/
def rebuild_records (fixtures : List Fixture) (results : List Result)
    (scores : List PlayerScore) (sid : Nat) (recs : List RecordSnapshot) :
    List RecordSnapshot :=
  let c := recordsOfScopePure fixtures results scores sid
  if recs.any (fun r => r.scopeId = sid) then
    recs.map (fun r => if r.scopeId = sid then c else r)
  else recs ++ [c]

/-! The Power Ranking Engine (services.rebuild_power_rankings). -/

/-- The gameweeks having a fixture in the scope, as (id, number) pairs in
(number, id) order (the distinct ordered query). -/
def gameweeksOfScope (fixtures : List Fixture) (sid : Nat) : List (Nat × Nat) :=
  pySortByKey (fun g : Nat × Nat => toLex (g.2, g.1))
    (dedupFirst ((fixtures.filter (fun f => f.scopeId == sid)).map
      (fun f => (f.gameweekId, f.gameweekNumber))))

/-- The form score of rebuild_power_rankings: W = 1.0, D = 0.5, L = 0.0
summed over the split form string and divided by exactly 5 (an empty form
leaves the score 0.0). -/
def formScoreOfLetters (letters : List String) : ℚ :=
  if letters.isEmpty then 0
  else (letters.foldl (fun s x =>
    s + (if x = "W" then 1 else if x = "D" then (1 : ℚ)/2 else 0)) 0) / 5

/-- Cumulative total points per team over played fixtures of the scope
with gameweek number at most g, seeded with 0 for each ranked team. In the
source a fixture team missing from the dict raises KeyError; the pipeline
always seeds the dict from standings built over the same played fixtures,
so the key is always present, and the embedding's skip-on-missing update
agrees with the source on every reachable state. -/
def cumTotalsAt (fixtures : List Fixture) (sid : Nat) (teamIds : List Nat)
    (g : Nat) : List (Nat × Int) :=
  ((playedFixturesOfScope fixtures sid).filter (fun f => f.gameweekNumber ≤ g)).foldl
    (fun tot f => alAdd (alAdd tot f.homeTeamId f.homeTotalPoints)
      f.awayTeamId f.awayTotalPoints)
    ((dedupFirst teamIds).map (fun t => (t, 0)))

/-- One gameweek's leaderboard: normalized cumulative totals (scope-wide
maximum as divisor, a zero maximum replaced by 1), the 0.65/0.35 blend
with the form score, teams sorted by score descending then lowered name,
ranks 1, 2, ... in that order. The Python floats 0.65 and 0.35 are read as
the decimal fractions 13/20 and 7/20. -/
def rowsAtCutoff (teams : List Team) (fixtures : List Fixture) (teamIds : List Nat)
    (sid : Nat) (gw : Nat × Nat) : List PowerRanking :=
  let totals := cumTotalsAt fixtures sid teamIds gw.2
  let maxTotal0 := listMaxD 1 (totals.map (fun p => p.2))
  let maxTotal := if maxTotal0 = 0 then 1 else maxTotal0
  let scored := teamIds.map (fun tid =>
    (tid, (13 : ℚ)/20 * (((alGet totals tid 0 : Int) : ℚ) / (maxTotal : ℚ))
        + (7 : ℚ)/20 * formScoreOfLetters (formLettersLast5 fixtures sid tid)))
  let sorted := pySortByKey
    (fun p : Nat × ℚ => toLex (-p.2, pyLowerCodes (teamNameOf teams p.1))) scored
  sorted.enum.map (fun ie =>
    ({ scopeId := sid, gameweekId := gw.1, teamId := ie.2.1,
       rank := ie.1 + 1, score := ie.2.2 } : PowerRanking))

/-- services.rebuild_power_rankings on the power-ranking table: delete the
scope's rows, return early without standings or gameweeks, else append one
leaderboard per gameweek. -/
def rebuild_power_rankings (teams : List Team) (fixtures : List Fixture)
    (standings : List TeamStanding) (sid : Nat) (pr : List PowerRanking) :
    List PowerRanking :=
  let pr1 := pr.filter (fun p => !(p.scopeId == sid))
  let ts := standings.filter (fun t => t.scopeId == sid)
  if ts.isEmpty then pr1
  else
    let gws := gameweeksOfScope fixtures sid
    if gws.isEmpty then pr1
    else
      let teamIds := ts.map (fun t => t.teamId)
      pr1 ++ (gws.map (rowsAtCutoff teams fixtures teamIds sid)).flatten

/-! The scope rebuild pipeline (services.rebuild_scope_materialized). -/

/-- The fixture ids of the scope. The source reads them in (kickoff_at, id)
order; each recalculation touches only its own fixture and reads none of
the others, so the embedding keeps table order. -/
def fixtureIdsOfScope (fixtures : List Fixture) (sid : Nat) : List Nat :=
  (fixtures.filter (fun f => f.scopeId == sid)).map (fun f => f.id)

/-- Step 1 of the pipeline for one fixture: recalculate its totals when it
has a result or is flagged played, else leave it alone. -/
def recalcStep (scopes : List Scope) (memberships : List TeamMembership)
    (results : List Result) (scores : List PlayerScore)
    (fxs : List Fixture) (fid : Nat) : Except String (List Fixture) :=
  match fxs.find? (fun f => f.id = fid) with
  | none => .error "Fixture matching query does not exist."
  | some f =>
    if results.any (fun r => r.fixtureId = fid) || f.isPlayed then
      recalcFixtures scopes memberships results scores fxs fid
    else .ok fxs

/-- Step 1 of the pipeline over a list of fixture ids. -/
def recalcList (scopes : List Scope) (memberships : List TeamMembership)
    (results : List Result) (scores : List PlayerScore) :
    List Fixture → List Nat → Except String (List Fixture)
  | fxs, [] => .ok fxs
  | fxs, fid :: rest =>
    match recalcStep scopes memberships results scores fxs fid with
    | .error e => .error e
    | .ok fxs1 => recalcList scopes memberships results scores fxs1 rest

/-- services.rebuild_scope_materialized: bring the scope's fixture totals
up to date; for a non-LEAGUE scope delete the scope's standings, player
standings and power rankings and stop (records are kept as they are); for
a LEAGUE scope fully replace team standings, player standings, the record
snapshot and the power rankings, in that order, all inside one
transaction (.error rolls everything back). -/
def rebuild_scope_materialized (db : DB) (sid : Nat) : Except String DB :=
  match db.scopes.find? (fun sc => sc.id = sid) with
  | none => .error "Scope matching query does not exist."
  | some scope =>
    match recalcList db.scopes db.memberships db.results db.scores db.fixtures
        (fixtureIdsOfScope db.fixtures sid) with
    | .error e => .error e
    | .ok fxs1 =>
      let db1 : DB := { db with fixtures := fxs1 }
      if scope.compType ≠ CompType.league then
        .ok { db1 with
          teamStandings := db1.teamStandings.filter (fun t => !(t.scopeId == sid))
          playerStandings := db1.playerStandings.filter (fun p => !(p.scopeId == sid))
          powerRankings := db1.powerRankings.filter (fun p => !(p.scopeId == sid)) }
      else
        let db2 : DB := { db1 with teamStandings := (db1.teamStandings.filter (fun t => !(t.scopeId == sid)) ++ compute_team_rows db1.teams db1.fixtures sid) }
        let db3 : DB := { db2 with playerStandings := (db2.playerStandings.filter (fun p => !(p.scopeId == sid)) ++ compute_player_rows db2.players db2.fixtures db2.results db2.scores sid) }
        let db4 : DB := { db3 with records := rebuild_records db3.fixtures db3.results db3.scores sid db3.records }
        let db5 : DB := { db4 with powerRankings := rebuild_power_rankings db4.teams db4.fixtures db4.teamStandings sid db4.powerRankings }
        .ok db5

/-- Projecting a gameweek leaderboard back onto (team, score) pairs gives
the sorted score list it was enumerated from. -/
theorem rowsAtCutoff_proj (teams : List Team) (fixtures : List Fixture)
    (teamIds : List Nat) (sid : Nat) (gw : Nat × Nat) :
    (rowsAtCutoff teams fixtures teamIds sid gw).map (fun e => (e.teamId, e.score))
      = pySortByKey (fun p : Nat × ℚ => toLex (-p.2, pyLowerCodes (teamNameOf teams p.1)))
          (teamIds.map (fun tid =>
            (tid, (13 : ℚ)/20 * (((alGet (cumTotalsAt fixtures sid teamIds gw.2) tid 0 : Int) : ℚ)
                / (((if listMaxD 1 ((cumTotalsAt fixtures sid teamIds gw.2).map (fun p => p.2)) = 0
                     then 1
                     else listMaxD 1 ((cumTotalsAt fixtures sid teamIds gw.2).map (fun p => p.2))) : Int) : ℚ))
              + (7 : ℚ)/20 * formScoreOfLetters (formLettersLast5 fixtures sid tid)))) := by
  simp only [rowsAtCutoff, List.map_map]
  have : ((fun e : PowerRanking => (e.teamId, e.score)) ∘ (fun ie : Nat × (Nat × ℚ) =>
      ({ scopeId := sid, gameweekId := gw.1, teamId := ie.2.1,
         rank := ie.1 + 1, score := ie.2.2 } : PowerRanking))) = Prod.snd := by
    funext ie
    rfl
  rw [this, List.enum_map_snd]

/-- Every ranked team appears in the gameweek leaderboard with the blended
score of the source: 0.65 times its cumulative total divided by the
guarded scope maximum, plus 0.35 times the form score of its (whole
season) last-5 form. -/
theorem rowsAtCutoff_mem_score (teams : List Team) (fixtures : List Fixture)
    (teamIds : List Nat) (sid : Nat) (gw : Nat × Nat) (tid : Nat)
    (h : tid ∈ teamIds) :
    ∃ e ∈ rowsAtCutoff teams fixtures teamIds sid gw, e.teamId = tid ∧
      e.score = (13 : ℚ)/20 * (((alGet (cumTotalsAt fixtures sid teamIds gw.2) tid 0 : Int) : ℚ)
          / (((if listMaxD 1 ((cumTotalsAt fixtures sid teamIds gw.2).map (fun p => p.2)) = 0
               then 1
               else listMaxD 1 ((cumTotalsAt fixtures sid teamIds gw.2).map (fun p => p.2))) : Int) : ℚ))
        + (7 : ℚ)/20 * formScoreOfLetters (formLettersLast5 fixtures sid tid) := by
  have hmem : (tid, (13 : ℚ)/20 * (((alGet (cumTotalsAt fixtures sid teamIds gw.2) tid 0 : Int) : ℚ)
          / (((if listMaxD 1 ((cumTotalsAt fixtures sid teamIds gw.2).map (fun p => p.2)) = 0
               then 1
               else listMaxD 1 ((cumTotalsAt fixtures sid teamIds gw.2).map (fun p => p.2))) : Int) : ℚ))
        + (7 : ℚ)/20 * formScoreOfLetters (formLettersLast5 fixtures sid tid))
      ∈ (rowsAtCutoff teams fixtures teamIds sid gw).map (fun e => (e.teamId, e.score)) := by
    rw [rowsAtCutoff_proj]
    refine (pySortByKey_perm _ _).mem_iff.mpr ?_
    exact List.mem_map_of_mem _ h
  rcases List.mem_map.mp hmem with ⟨e, he, heq⟩
  exact ⟨e, he, congrArg Prod.fst heq, congrArg Prod.snd heq⟩

/-- Every leaderboard row carries the scope and the cutoff gameweek it was
built for. -/
theorem rowsAtCutoff_fields (teams : List Team) (fixtures : List Fixture)
    (teamIds : List Nat) (sid : Nat) (gw : Nat × Nat) :
    ∀ e ∈ rowsAtCutoff teams fixtures teamIds sid gw, e.scopeId = sid ∧ e.gameweekId = gw.1 := by
  intro e he
  simp only [rowsAtCutoff] at he
  rcases List.mem_map.mp he with ⟨ie, _, rfl⟩
  exact ⟨rfl, rfl⟩

/-- Modelled from the claim of the power-ranking specification: the form
restricted to the cutoff, i.e. the W/D/L letters of the most recent up to
5 played fixtures of the team with gameweek number at most g. -/
def claimFormLettersUpTo (fixtures : List Fixture) (sid tid g : Nat) : List String :=
  ((pySortByKey (fun f : Fixture => -f.kickoffAt)
      ((playedFixturesOfScope fixtures sid).filter
        (fun f => (f.homeTeamId == tid || f.awayTeamId == tid) && f.gameweekNumber ≤ g))).take 5).map
    (fun f =>
      let mp := if f.homeTeamId = tid then f.homeMatchPoints else f.awayMatchPoints
      if mp = 3 then "W" else if mp = 1 then "D" else "L")

/-- Failing input for the power-ranking form cutoff: team 1 loses its
gameweek-1 fixture and wins its gameweek-2 fixture, both played. -/
def teamsC5 : List Team := [{ id := 1, name := "Alpha" }, { id := 2, name := "Beta" }]

/-- The two played fixtures of the failing input. -/
def fixturesC5 : List Fixture :=
  [{ id := 100, scopeId := 10, gameweekId := 1, gameweekNumber := 1,
     kickoffAt := 50, kickoffDate := 50, homeTeamId := 1, awayTeamId := 2,
     homeTotalPoints := 0, awayTotalPoints := 5, homeMatchPoints := 0,
     awayMatchPoints := 3, isPlayed := true },
   { id := 101, scopeId := 10, gameweekId := 2, gameweekNumber := 2,
     kickoffAt := 60, kickoffDate := 60, homeTeamId := 1, awayTeamId := 2,
     homeTotalPoints := 9, awayTotalPoints := 2, homeMatchPoints := 3,
     awayMatchPoints := 0, isPlayed := true }]

/-- Standings for the failing input's scope, one row per team, as the
pipeline would have just rebuilt them. -/
def standingsC5 : List TeamStanding :=
  [{ scopeId := 10, teamId := 1, played := 2, wins := 1, draws := 0, losses := 1,
     matchPoints := 3, totalPoints := 9, formLast5 := ["W", "L"] },
   { scopeId := 10, teamId := 2, played := 2, wins := 1, draws := 0, losses := 1,
     matchPoints := 3, totalPoints := 7, formLast5 := ["L", "W"] }]

/-- C5: the form entering the gameweek-1 power ranking is the whole-season
last-5 form, not the form restricted to gameweek <= 1. At the failing
input team 1's whole-season form is W,L (the W from the gameweek-2
fixture) while the claim's cutoff form is just L, the two form scores
differ, and the persisted gameweek-1 row for team 1 carries the score
blended from the whole-season form, hence not the score the claim
requires. -/
theorem power_rankings_use_whole_season_form :
    formLettersLast5 fixturesC5 10 1 = ["W", "L"] ∧
    claimFormLettersUpTo fixturesC5 10 1 1 = ["L"] ∧
    formScoreOfLetters (formLettersLast5 fixturesC5 10 1)
      ≠ formScoreOfLetters (claimFormLettersUpTo fixturesC5 10 1 1) ∧
    (∃ e ∈ rebuild_power_rankings teamsC5 fixturesC5 standingsC5 10 [],
      e.gameweekId = 1 ∧ e.teamId = 1 ∧
      e.score = (13 : ℚ)/20 * (((alGet (cumTotalsAt fixturesC5 10 [1, 2] 1) 1 0 : Int) : ℚ)
          / (((if listMaxD 1 ((cumTotalsAt fixturesC5 10 [1, 2] 1).map (fun p => p.2)) = 0
               then 1
               else listMaxD 1 ((cumTotalsAt fixturesC5 10 [1, 2] 1).map (fun p => p.2))) : Int) : ℚ))
        + (7 : ℚ)/20 * formScoreOfLetters (formLettersLast5 fixturesC5 10 1) ∧
      e.score ≠ (13 : ℚ)/20 * (((alGet (cumTotalsAt fixturesC5 10 [1, 2] 1) 1 0 : Int) : ℚ)
          / (((if listMaxD 1 ((cumTotalsAt fixturesC5 10 [1, 2] 1).map (fun p => p.2)) = 0
               then 1
               else listMaxD 1 ((cumTotalsAt fixturesC5 10 [1, 2] 1).map (fun p => p.2))) : Int) : ℚ))
        + (7 : ℚ)/20 * formScoreOfLetters (claimFormLettersUpTo fixturesC5 10 1 1)) := by
  have hcode : formLettersLast5 fixturesC5 10 1 = ["W", "L"] := by decide
  have hclaim : claimFormLettersUpTo fixturesC5 10 1 1 = ["L"] := by decide
  have hformne : formScoreOfLetters (formLettersLast5 fixturesC5 10 1)
      ≠ formScoreOfLetters (claimFormLettersUpTo fixturesC5 10 1 1) := by
    rw [hcode, hclaim]
    simp only [formScoreOfLetters, List.isEmpty_cons, List.foldl_cons, List.foldl_nil]
    rw [if_neg (by decide : ¬("L" : String) = "W"), if_neg (by decide : ¬("L" : String) = "D")]
    norm_num
  refine ⟨hcode, hclaim, hformne, ?_⟩
  obtain ⟨e, he, hid, hscore⟩ :=
    rowsAtCutoff_mem_score teamsC5 fixturesC5 [1, 2] 10 (1, 1) 1 (by decide)
  have hout : rebuild_power_rankings teamsC5 fixturesC5 standingsC5 10 []
      = (((gameweeksOfScope fixturesC5 10).map
          (rowsAtCutoff teamsC5 fixturesC5 [1, 2] 10)).flatten) := by
    have hts : standingsC5.filter (fun t => t.scopeId == 10) = standingsC5 := by decide
    have htids : standingsC5.map (fun t => t.teamId) = [1, 2] := by decide
    simp only [rebuild_power_rankings, hts, htids]
    have hgws : gameweeksOfScope fixturesC5 10 = [(1, 1), (2, 2)] := by decide
    rw [hgws]
    rfl
  have hgwmem : rowsAtCutoff teamsC5 fixturesC5 [1, 2] 10 (1, 1)
      ∈ (gameweeksOfScope fixturesC5 10).map (rowsAtCutoff teamsC5 fixturesC5 [1, 2] 10) := by
    have hgws : gameweeksOfScope fixturesC5 10 = [(1, 1), (2, 2)] := by decide
    rw [hgws]
    exact List.mem_map_of_mem _ (List.mem_cons_self _ _)
  refine ⟨e, by rw [hout]; exact List.mem_flatten.mpr ⟨_, hgwmem, he⟩, ?_, hid, hscore, ?_⟩
  · exact (rowsAtCutoff_fields teamsC5 fixturesC5 [1, 2] 10 (1, 1) e he).2
  · rw [hscore]
    intro hEq
    have h2 := add_left_cancel hEq
    have h3 := mul_left_cancel₀ (by norm_num : ((7 : ℚ)/20) ≠ 0) h2
    exact hformne h3

/-! Lemmas for the streak pass of the Records Engine. -/

/-- Setting a present key by mapping: reading it back gives the value. -/
theorem alGet_mapSet_self (l : List (Nat × Nat)) (k v : Nat)
    (hany : l.any (fun p => p.1 = k) = true) :
    alGet (l.map (fun p => if p.1 = k then (p.1, v) else p)) k 0 = v := by
  induction l with
  | nil => simp at hany
  | cons p rest ih =>
    by_cases hp : p.1 = k
    · simp only [List.map_cons, if_pos hp, alGet_cons]
    · simp only [List.map_cons, if_neg hp, alGet_cons]
      apply ih
      simp only [List.any_cons, Bool.or_eq_true, decide_eq_true_eq] at hany
      rcases hany with h | h
      · exact absurd h hp
      · exact h

/-- Setting a key by mapping leaves every other key's value unchanged. -/
theorem alGet_mapSet_ne (l : List (Nat × Nat)) (k v t : Nat) (h : t ≠ k) :
    alGet (l.map (fun p => if p.1 = k then (p.1, v) else p)) t 0 = alGet l t 0 := by
  induction l with
  | nil => rfl
  | cons p rest ih =>
    by_cases hp : p.1 = k
    · have hpt : ¬(p.1 = t) := by rw [hp]; exact fun he => h he.symm
      simp only [List.map_cons, if_pos hp, alGet_cons]
      rw [if_neg hpt, if_neg hpt]
      exact ih
    · simp only [List.map_cons, if_neg hp, alGet_cons]
      by_cases hpt : p.1 = t
      · rw [if_pos hpt, if_pos hpt]
      · rw [if_neg hpt, if_neg hpt]
        exact ih

/-- Appending a fresh key: reading it back gives the value. -/
theorem alGet_append_self (l : List (Nat × Nat)) (k v : Nat)
    (h : l.any (fun p => p.1 = k) = false) :
    alGet (l ++ [(k, v)]) k 0 = v := by
  induction l with
  | nil => simp [alGet_cons]
  | cons p rest ih =>
    simp only [List.any_cons, Bool.or_eq_false_iff, decide_eq_false_iff_not] at h
    rw [List.cons_append, alGet_cons, if_neg h.1]
    exact ih (by simpa using h.2)

/-- A single appended entry does not affect other keys. -/
theorem alGet_append_ne (l : List (Nat × Nat)) (k v t : Nat) (h : t ≠ k) :
    alGet (l ++ [(k, v)]) t 0 = alGet l t 0 := by
  induction l with
  | nil =>
    simp only [List.nil_append, alGet_cons]
    rw [if_neg (fun he => h he.symm)]
  | cons p rest ih =>
    rw [List.cons_append, alGet_cons, alGet_cons]
    by_cases hpt : p.1 = t
    · rw [if_pos hpt, if_pos hpt]
    · rw [if_neg hpt, if_neg hpt]
      exact ih

/-- Reading back the upserted key gives the new value. -/
theorem alUpsert_get_self (l : List (Nat × Nat)) (k : Nat) (v : Nat) :
    alGet (alUpsert l k v) k 0 = v := by
  unfold alUpsert
  by_cases hany : l.any (fun p => p.1 = k)
  · rw [if_pos hany]
    exact alGet_mapSet_self l k v hany
  · rw [if_neg hany]
    exact alGet_append_self l k v (Bool.eq_false_iff.mpr hany)

/-- Upserting one key leaves every other key's value unchanged. -/
theorem alUpsert_get_ne (l : List (Nat × Nat)) (k : Nat) (v : Nat) (t : Nat)
    (h : t ≠ k) : alGet (alUpsert l k v) t 0 = alGet l t 0 := by
  unfold alUpsert
  by_cases hany : l.any (fun p => p.1 = k)
  · rw [if_pos hany]
    exact alGet_mapSet_ne l k v t h
  · rw [if_neg hany]
    exact alGet_append_ne l k v t h

/-- Maximum of a list of naturals (0 for the empty list). -/
def natListMax (l : List Nat) : Nat := l.foldr max 0

/-- The win-streak counter values reached after each step of the records
pass, each read off for the team the step concerns. -/
def winReached (steps : List (Nat × Int)) : List Nat :=
  (List.range steps.length).map (fun i =>
    streakGet (streakFold (steps.take (i + 1))).winMap (steps.getD i (0, 0)).1)

/-- The unbeaten-streak counter values reached after each step. -/
def unbReached (steps : List (Nat × Int)) : List Nat :=
  (List.range steps.length).map (fun i =>
    streakGet (streakFold (steps.take (i + 1))).unbMap (steps.getD i (0, 0)).1)

/-- natListMax over a cons. -/
theorem natListMax_cons (a : Nat) (l : List Nat) :
    natListMax (a :: l) = max a (natListMax l) := rfl

/-- The folded best win streak from any start state is the maximum of the
start's best and of every counter value reached along the way. -/
theorem streak_foldl_winBest (steps : List (Nat × Int)) : ∀ (st : StreakState),
    (steps.foldl (fun s p => streakUpd s p.1 p.2) st).winBest
      = max st.winBest (natListMax ((List.range steps.length).map (fun i =>
          streakGet ((steps.take (i + 1)).foldl (fun s p => streakUpd s p.1 p.2) st).winMap
            (steps.getD i (0, 0)).1))) := by
  induction steps with
  | nil => intro st; simp [natListMax]
  | cons s rest ih =>
    intro st
    rw [List.foldl_cons, ih (streakUpd st s.1 s.2)]
    conv_rhs => rw [List.length_cons, List.range_succ_eq_map]
    rw [List.map_cons, List.map_map]
    have hcongr : ∀ i ∈ List.range rest.length,
        ((fun i => streakGet (((s :: rest).take (i + 1)).foldl
            (fun s p => streakUpd s p.1 p.2) st).winMap (((s :: rest).getD i (0, 0)).1))
          ∘ Nat.succ) i
        = (fun i => streakGet ((rest.take (i + 1)).foldl
            (fun s p => streakUpd s p.1 p.2) (streakUpd st s.1 s.2)).winMap
            ((rest.getD i (0, 0)).1)) i := by
      intro i _
      simp only [Function.comp_apply, List.take_succ_cons, List.foldl_cons, List.getD_cons_succ]
    rw [List.map_congr_left hcongr, natListMax_cons]
    have hhead : streakGet (((s :: rest).take (0 + 1)).foldl
        (fun s p => streakUpd s p.1 p.2) st).winMap (((s :: rest).getD 0 (0, 0)).1)
        = (if s.2 = 3 then streakGet st.winMap s.1 + 1 else 0) := by
      simp only [List.take_succ_cons, List.take_zero, List.foldl_cons, List.foldl_nil,
        List.getD_cons_zero]
      simp only [streakUpd]
      exact alUpsert_get_self _ _ _
    rw [hhead]
    have hbest : (streakUpd st s.1 s.2).winBest
        = max st.winBest (if s.2 = 3 then streakGet st.winMap s.1 + 1 else 0) := rfl
    rw [hbest]
    omega

/-- The folded best unbeaten streak from any start state is the maximum of
the start's best and of every counter value reached along the way. -/
theorem streak_foldl_unbBest (steps : List (Nat × Int)) : ∀ (st : StreakState),
    (steps.foldl (fun s p => streakUpd s p.1 p.2) st).unbBest
      = max st.unbBest (natListMax ((List.range steps.length).map (fun i =>
          streakGet ((steps.take (i + 1)).foldl (fun s p => streakUpd s p.1 p.2) st).unbMap
            (steps.getD i (0, 0)).1))) := by
  induction steps with
  | nil => intro st; simp [natListMax]
  | cons s rest ih =>
    intro st
    rw [List.foldl_cons, ih (streakUpd st s.1 s.2)]
    conv_rhs => rw [List.length_cons, List.range_succ_eq_map]
    rw [List.map_cons, List.map_map]
    have hcongr : ∀ i ∈ List.range rest.length,
        ((fun i => streakGet (((s :: rest).take (i + 1)).foldl
            (fun s p => streakUpd s p.1 p.2) st).unbMap (((s :: rest).getD i (0, 0)).1))
          ∘ Nat.succ) i
        = (fun i => streakGet ((rest.take (i + 1)).foldl
            (fun s p => streakUpd s p.1 p.2) (streakUpd st s.1 s.2)).unbMap
            ((rest.getD i (0, 0)).1)) i := by
      intro i _
      simp only [Function.comp_apply, List.take_succ_cons, List.foldl_cons, List.getD_cons_succ]
    rw [List.map_congr_left hcongr, natListMax_cons]
    have hhead : streakGet (((s :: rest).take (0 + 1)).foldl
        (fun s p => streakUpd s p.1 p.2) st).unbMap (((s :: rest).getD 0 (0, 0)).1)
        = (if s.2 = 3 ∨ s.2 = 1 then streakGet st.unbMap s.1 + 1 else 0) := by
      simp only [List.take_succ_cons, List.take_zero, List.foldl_cons, List.foldl_nil,
        List.getD_cons_zero]
      simp only [streakUpd]
      exact alUpsert_get_self _ _ _
    rw [hhead]
    have hbest : (streakUpd st s.1 s.2).unbBest
        = max st.unbBest (if s.2 = 3 ∨ s.2 = 1 then streakGet st.unbMap s.1 + 1 else 0) := rfl
    rw [hbest]
    omega

/-- C9: in the records pass, a step with match points 3 sets the stepped
team's win counter to its old value plus one and any other value resets it
to 0; the unbeaten counter extends on 3 or 1 and resets to 0 otherwise;
counters of other teams are untouched by a step; and the persisted longest
win and unbeaten streaks equal the maximum counter value any team ever
reached during the pass. -/
theorem records_streaks_spec :
    (∀ (st : StreakState) (t : Nat) (mp : Int),
       streakGet (streakUpd st t mp).winMap t
         = (if mp = 3 then streakGet st.winMap t + 1 else 0) ∧
       streakGet (streakUpd st t mp).unbMap t
         = (if mp = 3 ∨ mp = 1 then streakGet st.unbMap t + 1 else 0)) ∧
    (∀ (st : StreakState) (t : Nat) (mp : Int) (t2 : Nat), t2 ≠ t →
       streakGet (streakUpd st t mp).winMap t2 = streakGet st.winMap t2 ∧
       streakGet (streakUpd st t mp).unbMap t2 = streakGet st.unbMap t2) ∧
    (∀ (fixtures : List Fixture) (results : List Result)
       (scores : List PlayerScore) (sid : Nat),
       (recordsOfScopePure fixtures results scores sid).longestWinStreak
         = natListMax (winReached (recordSteps
             (pySortByKey (fun f : Fixture => f.kickoffAt)
               (playedFixturesOfScope fixtures sid)))) ∧
       (recordsOfScopePure fixtures results scores sid).longestUnbeatenStreak
         = natListMax (unbReached (recordSteps
             (pySortByKey (fun f : Fixture => f.kickoffAt)
               (playedFixturesOfScope fixtures sid))))) := by
  refine ⟨?_, ?_, ?_⟩
  · intro st t mp
    constructor
    · simp only [streakUpd]
      exact alUpsert_get_self _ _ _
    · simp only [streakUpd]
      exact alUpsert_get_self _ _ _
  · intro st t mp t2 ht
    constructor
    · simp only [streakUpd]
      exact alUpsert_get_ne _ _ _ _ ht
    · simp only [streakUpd]
      exact alUpsert_get_ne _ _ _ _ ht
  · intro fixtures results scores sid
    constructor
    · show (streakFold (recordSteps (pySortByKey (fun f : Fixture => f.kickoffAt)
        (playedFixturesOfScope fixtures sid)))).winBest = _
      rw [streakFold, streak_foldl_winBest]
      simp only [winReached, streakFold]
      omega
    · show (streakFold (recordSteps (pySortByKey (fun f : Fixture => f.kickoffAt)
        (playedFixturesOfScope fixtures sid)))).unbBest = _
      rw [streakFold, streak_foldl_unbBest]
      simp only [unbReached, streakFold]
      omega

/-- A concrete streak state for the C9 witness. -/
def streakStW : StreakState :=
  { winMap := [(1, 4), (2, 2)], unbMap := [(1, 4), (2, 3)], winBest := 4, unbBest := 4 }

/-- Witness for C9: the other-team-untouched clause at a concrete state. -/
theorem records_streaks_spec_witness :
    ((2 : Nat) ≠ 1) ∧
    (streakGet (streakUpd streakStW 1 3).winMap 2 = streakGet streakStW.winMap 2 ∧
     streakGet (streakUpd streakStW 1 3).unbMap 2 = streakGet streakStW.unbMap 2) :=
  ⟨by decide, records_streaks_spec.2.1 streakStW 1 3 2 (by decide)⟩

/-- C10: a successful rebuild of a non-LEAGUE scope deletes the scope's
team standings, player standings and power rankings (keeping every other
scope's rows) and leaves the records table - in particular any existing
RecordSnapshot of the scope - completely unchanged. -/
theorem rebuild_non_league_frame (db : DB) (sid : Nat) (scope : Scope) (db' : DB)
    (hscope : db.scopes.find? (fun sc => sc.id = sid) = some scope)
    (hcomp : scope.compType ≠ CompType.league)
    (hok : rebuild_scope_materialized db sid = .ok db') :
    db'.records = db.records ∧
    db'.teamStandings = db.teamStandings.filter (fun t => !(t.scopeId == sid)) ∧
    db'.playerStandings = db.playerStandings.filter (fun p => !(p.scopeId == sid)) ∧
    db'.powerRankings = db.powerRankings.filter (fun p => !(p.scopeId == sid)) := by
  simp only [rebuild_scope_materialized, hscope] at hok
  cases hrec : recalcList db.scopes db.memberships db.results db.scores db.fixtures
      (fixtureIdsOfScope db.fixtures sid) with
  | error e => simp only [hrec] at hok; cases hok
  | ok fxs1 =>
    simp only [hrec] at hok
    rw [if_pos hcomp] at hok
    have h := Except.ok.inj hok
    rw [← h]
    exact ⟨rfl, rfl, rfl, rfl⟩

/-- Witness for C10 at the sample CUP scope (id 20), which has no fixtures
and empty derived tables, so the rebuild returns the database unchanged. -/
theorem rebuild_non_league_frame_witness :
    (sampleDB.scopes.find? (fun sc => sc.id = 20)
       = some { id := 20, seasonId := 1, compType := CompType.cup } ∧
     ({ id := 20, seasonId := 1, compType := CompType.cup } : Scope).compType ≠ CompType.league ∧
     rebuild_scope_materialized sampleDB 20 = .ok sampleDB) ∧
    (sampleDB.records = sampleDB.records ∧
     sampleDB.teamStandings = sampleDB.teamStandings.filter (fun t => !(t.scopeId == 20)) ∧
     sampleDB.playerStandings = sampleDB.playerStandings.filter (fun p => !(p.scopeId == 20)) ∧
     sampleDB.powerRankings = sampleDB.powerRankings.filter (fun p => !(p.scopeId == 20))) :=
  ⟨⟨by decide, by decide, by rfl⟩,
    rebuild_non_league_frame sampleDB 20
      { id := 20, seasonId := 1, compType := CompType.cup } sampleDB
      (by decide) (by decide) (by rfl)⟩

/-! Claim C6: the power-ranking score formula and ranking order. -/

/-- One fixture's contribution to a team's cumulative total. -/
def fixContr (f : Fixture) (t : Nat) : Int :=
  (if t = f.homeTeamId then f.homeTotalPoints else 0)
    + (if t = f.awayTeamId then f.awayTotalPoints else 0)

/-- Stated from the claim: a team's cumulative total points over the
played fixtures of the scope with gameweek number at most g. -/
def claimCumTotal (fixtures : List Fixture) (sid : Nat) (t : Nat) (g : Nat) : Int :=
  (((playedFixturesOfScope fixtures sid).filter (fun f => f.gameweekNumber ≤ g)).map
    (fun f => fixContr f t)).sum

/-- Stated from the claim: the scope-wide maximum cumulative total at the
cutoff, with a maximum of 0 treated as 1. -/
def claimMaxTotal (fixtures : List Fixture) (sid : Nat) (teamIds : List Nat) (g : Nat) : Int :=
  let m := listMaxD 1 ((dedupFirst teamIds).map (fun t => claimCumTotal fixtures sid t g))
  if m = 0 then 1 else m

/-- Stated from the claim: the form score as the sum of W = 1.0, D = 0.5,
L = 0.0 over the form string, divided by exactly 5 regardless of how many
results the string holds. -/
def claimFormScore (letters : List String) : ℚ :=
  ((letters.map (fun x => if x = "W" then (1 : ℚ) else if x = "D" then 1/2 else 0)).sum) / 5

/-- The source's form-score loop computes exactly the claim's sum over 5. -/
theorem formScoreOfLetters_eq_claim (letters : List String) :
    formScoreOfLetters letters = claimFormScore letters := by
  cases letters with
  | nil => simp [formScoreOfLetters, claimFormScore]
  | cons x xs =>
    simp only [formScoreOfLetters, claimFormScore, List.isEmpty_cons, Bool.false_eq_true,
      if_false]
    congr 1
    rw [List.sum_eq_foldl, ← List.foldl_map]

/-- A double dict-add as a single entrywise map. -/
theorem alAdd2_as_map (acc : List (Nat × Int)) (k1 k2 : Nat) (x y : Int) :
    alAdd (alAdd acc k1 x) k2 y
      = acc.map (fun p =>
          (p.1, p.2 + ((if p.1 = k1 then x else 0) + (if p.1 = k2 then y else 0)))) := by
  unfold alAdd
  rw [List.map_map]
  apply List.map_congr_left
  intro p _
  simp only [Function.comp_apply]
  by_cases h1 : p.1 = k1
  · subst h1
    by_cases h2 : p.1 = k2
    · subst h2
      simp [add_assoc]
    · simp [h2]
  · by_cases h2 : p.1 = k2
    · subst h2
      simp [h1]
    · simp [h1, h2]

/-- The totals fold is the entrywise sum of the fixtures' contributions. -/
theorem totalsFold_as_map : ∀ (fxs : List Fixture) (acc : List (Nat × Int)),
    fxs.foldl (fun tot f => alAdd (alAdd tot f.homeTeamId f.homeTotalPoints)
      f.awayTeamId f.awayTotalPoints) acc
    = acc.map (fun p => (p.1, p.2 + ((fxs.map (fun f => fixContr f p.1)).sum))) := by
  intro fxs
  induction fxs with
  | nil =>
    intro acc
    simp
  | cons f rest ih =>
    intro acc
    rw [List.foldl_cons, ih, alAdd2_as_map, List.map_map]
    apply List.map_congr_left
    intro p _
    simp only [Function.comp_apply, List.map_cons, List.sum_cons, fixContr]
    congr 1
    omega

/-- The totals dict of a cutoff is the claim's cumulative total for each
seeded team. -/
theorem cumTotalsAt_eq (fixtures : List Fixture) (sid : Nat) (teamIds : List Nat) (g : Nat) :
    cumTotalsAt fixtures sid teamIds g
      = (dedupFirst teamIds).map (fun t => (t, claimCumTotal fixtures sid t g)) := by
  unfold cumTotalsAt claimCumTotal
  rw [totalsFold_as_map, List.map_map]
  apply List.map_congr_left
  intro t _
  simp

/-- Looking up a key-indexed map of values. -/
theorem alGet_keyMap (l : List Nat) (F : Nat → Int) (t : Nat) (ht : t ∈ l) :
    alGet (l.map (fun t => (t, F t))) t 0 = F t := by
  induction l with
  | nil => simp at ht
  | cons x xs ih =>
    rw [List.map_cons, alGet_cons]
    by_cases hx : x = t
    · rw [if_pos hx, hx]
    · rw [if_neg hx]
      rcases List.mem_cons.mp ht with h | h
      · exact absurd h.symm hx
      · exact ih h

/-- A list without duplicates is its own first-occurrence dedup. -/
theorem dedupFirst_eq_self {α : Type} [DecidableEq α] {l : List α} (h : l.Nodup) :
    dedupFirst l = l := by
  induction l with
  | nil => rfl
  | cons x xs ih =>
    have hx : x ∉ xs := (List.nodup_cons.mp h).1
    rw [dedupFirst, ih (List.nodup_cons.mp h).2]
    congr 1
    exact List.filter_eq_self.mpr (fun y hy => by
      simp only [ne_eq, decide_not, Bool.not_eq_eq_eq_not, Bool.not_true, decide_eq_false_iff_not]
      exact fun he => hx (he ▸ hy))

/-- C6: every persisted power-ranking row of a gameweek cutoff carries the
score 0.65 x (cumulative total over played fixtures with gameweek <= g,
divided by the scope-wide maximum with 0 treated as 1) + 0.35 x (form
letters summed W=1, D=0.5, L=0 and divided by exactly 5); the ranks are
1, 2, ... in list order; and the rows are pairwise ordered by score
descending with ties broken by lowered team name ascending. -/
theorem power_ranking_rows_spec (teams : List Team) (fixtures : List Fixture)
    (teamIds : List Nat) (sid : Nat) (gw : Nat × Nat) (hnd : teamIds.Nodup) :
    (∀ e ∈ rowsAtCutoff teams fixtures teamIds sid gw,
       e.score = (13 : ℚ)/20 * (((claimCumTotal fixtures sid e.teamId gw.2 : Int) : ℚ)
           / ((claimMaxTotal fixtures sid teamIds gw.2 : Int) : ℚ))
         + (7 : ℚ)/20 * claimFormScore (formLettersLast5 fixtures sid e.teamId)) ∧
    ((rowsAtCutoff teams fixtures teamIds sid gw).map (fun e => e.rank)
       = (List.range teamIds.length).map (fun i => i + 1)) ∧
    ((rowsAtCutoff teams fixtures teamIds sid gw).Pairwise (fun a b =>
       b.score < a.score ∨ (a.score = b.score ∧
         pyLowerCodes (teamNameOf teams a.teamId) ≤ pyLowerCodes (teamNameOf teams b.teamId)))) := by
  have hdd : dedupFirst teamIds = teamIds := dedupFirst_eq_self hnd
  have hmaxEq : (if listMaxD 1 ((cumTotalsAt fixtures sid teamIds gw.2).map (fun p => p.2)) = 0
        then 1
        else listMaxD 1 ((cumTotalsAt fixtures sid teamIds gw.2).map (fun p => p.2)))
      = claimMaxTotal fixtures sid teamIds gw.2 := by
    rw [cumTotalsAt_eq, List.map_map]
    rfl
  have hbridge : ∀ tid ∈ teamIds,
      (13 : ℚ)/20 * (((alGet (cumTotalsAt fixtures sid teamIds gw.2) tid 0 : Int) : ℚ)
          / (((if listMaxD 1 ((cumTotalsAt fixtures sid teamIds gw.2).map (fun p => p.2)) = 0
               then 1
               else listMaxD 1 ((cumTotalsAt fixtures sid teamIds gw.2).map (fun p => p.2))) : Int) : ℚ))
        + (7 : ℚ)/20 * formScoreOfLetters (formLettersLast5 fixtures sid tid)
      = (13 : ℚ)/20 * (((claimCumTotal fixtures sid tid gw.2 : Int) : ℚ)
           / ((claimMaxTotal fixtures sid teamIds gw.2 : Int) : ℚ))
        + (7 : ℚ)/20 * claimFormScore (formLettersLast5 fixtures sid tid) := by
    intro tid htid
    rw [hmaxEq, formScoreOfLetters_eq_claim]
    rw [cumTotalsAt_eq, alGet_keyMap _ _ _ (by rw [hdd]; exact htid)]
  refine ⟨?_, ?_, ?_⟩
  · intro e he
    have hproj : (e.teamId, e.score)
        ∈ (rowsAtCutoff teams fixtures teamIds sid gw).map (fun e => (e.teamId, e.score)) :=
      List.mem_map_of_mem _ he
    rw [rowsAtCutoff_proj] at hproj
    have hsc := (pySortByKey_perm _ _).subset hproj
    rcases List.mem_map.mp hsc with ⟨tid, htid, hpair⟩
    rw [Prod.mk.injEq] at hpair
    obtain ⟨h1, h2⟩ := hpair
    subst h1
    rw [← h2]
    exact hbridge _ htid
  · simp only [rowsAtCutoff, List.map_map]
    have hfun : ((fun e : PowerRanking => e.rank) ∘ (fun ie : Nat × (Nat × ℚ) =>
        ({ scopeId := sid, gameweekId := gw.1, teamId := ie.2.1,
           rank := ie.1 + 1, score := ie.2.2 } : PowerRanking)))
        = (fun i => i + 1) ∘ Prod.fst := by
      funext ie
      rfl
    rw [hfun, ← List.map_map, List.enum_map_fst]
    congr 2
    rw [(pySortByKey_perm _ _).length_eq, List.length_map]
  · have hpairproj : ((rowsAtCutoff teams fixtures teamIds sid gw).map
        (fun e => (e.teamId, e.score))).Pairwise
        (fun a b : Nat × ℚ =>
          toLex (-a.2, pyLowerCodes (teamNameOf teams a.1))
            ≤ toLex (-b.2, pyLowerCodes (teamNameOf teams b.1))) := by
      rw [rowsAtCutoff_proj]
      exact pySortByKey_pairwise _ _
    rw [List.pairwise_map] at hpairproj
    refine hpairproj.imp ?_
    intro a b hab
    rw [Prod.Lex.le_iff] at hab
    rcases hab with h | ⟨h1, h2⟩
    · left
      exact neg_lt_neg_iff.mp h
    · right
      exact ⟨neg_inj.mp h1, h2⟩

def teamsC6 : List Team := [{ id := 1, name := "Alpha" }, { id := 2, name := "Beta" }]

theorem power_ranking_rows_spec_witness :
    ([1, 2] : List Nat).Nodup ∧
    ((∀ e ∈ rowsAtCutoff teamsC6 [] [1, 2] 10 (1, 1),
       e.score = (13 : ℚ)/20 * (((claimCumTotal [] 10 e.teamId 1 : Int) : ℚ)
           / ((claimMaxTotal [] 10 [1, 2] 1 : Int) : ℚ))
         + (7 : ℚ)/20 * claimFormScore (formLettersLast5 [] 10 e.teamId)) ∧
    ((rowsAtCutoff teamsC6 [] [1, 2] 10 (1, 1)).map (fun e => e.rank)
       = (List.range ([1, 2] : List Nat).length).map (fun i => i + 1)) ∧
    ((rowsAtCutoff teamsC6 [] [1, 2] 10 (1, 1)).Pairwise (fun a b =>
       b.score < a.score ∨ (a.score = b.score ∧
         pyLowerCodes (teamNameOf teamsC6 a.teamId) ≤ pyLowerCodes (teamNameOf teamsC6 b.teamId))))) :=
  ⟨by decide, power_ranking_rows_spec teamsC6 [] [1, 2] 10 (1, 1) (by decide)⟩

/-! Claim C4: idempotence of the scope rebuild pipeline. The supporting
lemmas show that recalculating a fixture's cached totals is a stable
operation (a second pass recomputes the same values), and that each
replace-the-scope's-rows stage is a fixed point on its own output. -/

/-- Writing cached fields twice keeps only the last write. -/
theorem applyCached_applyCached (v w : CachedTotals) (f : Fixture) :
    applyCached v (applyCached w f) = applyCached v f := rfl

/-- recalcCore reads only the base fields of the fixture, which a cached
write leaves untouched. -/
theorem recalcCore_applyCached (s : List Scope) (m : List TeamMembership)
    (r : List Result) (sc : List PlayerScore) (v : CachedTotals) (f : Fixture) :
    recalcCore s m r sc (applyCached v f) = recalcCore s m r sc f := rfl

/-- Writing the same cached values twice equals writing them once. -/
theorem writeFixture_writeFixture_self (fxs : List Fixture) (fid : Nat) (v : CachedTotals) :
    writeFixture (writeFixture fxs fid v) fid v = writeFixture fxs fid v := by
  simp only [writeFixture, List.map_map]
  congr 1
  funext f
  by_cases h : f.id = fid
  · simp [h, applyCached]
  · simp [h]

/-- Cached writes to two different fixture ids commute. -/
theorem writeFixture_comm (fxs : List Fixture) (fid fid' : Nat) (v v' : CachedTotals)
    (h : fid ≠ fid') :
    writeFixture (writeFixture fxs fid' v') fid v
      = writeFixture (writeFixture fxs fid v) fid' v' := by
  simp only [writeFixture, List.map_map]
  congr 1
  funext f
  by_cases h1 : f.id = fid <;> by_cases h2 : f.id = fid'
  · exact absurd (h1.symm.trans h2) h
  · simp [h1, h2, applyCached, h, h.symm]
  · simp [h1, h2, applyCached, h, h.symm]
  · simp [h1, h2]

/-- A cached write to a different fixture id does not change what find?
returns for this id. -/
theorem find_writeFixture_ne {fxs : List Fixture} {fid fid' : Nat} (v' : CachedTotals)
    (h : fid ≠ fid') :
    (writeFixture fxs fid' v').find? (fun g => g.id = fid)
      = fxs.find? (fun g => g.id = fid) := by
  induction fxs with
  | nil => rfl
  | cons g t ih =>
    by_cases hg : g.id = fid
    · have hg' : ¬ g.id = fid' := fun he => h (hg.symm.trans he)
      simp only [writeFixture, List.map_cons, if_neg hg']
      rw [List.find?_cons_of_pos _ (by simpa using hg),
          List.find?_cons_of_pos _ (by simpa using hg)]
    · by_cases hg2 : g.id = fid'
      · simp only [writeFixture, List.map_cons, if_pos hg2]
        rw [List.find?_cons_of_neg _ (by simp [applyCached, hg]),
            List.find?_cons_of_neg _ (by simpa using hg)]
        exact ih
      · simp only [writeFixture, List.map_cons, if_neg hg2]
        rw [List.find?_cons_of_neg _ (by simpa using hg),
            List.find?_cons_of_neg _ (by simpa using hg)]
        exact ih

/-- A cached write preserves every fixture's id and scope, so the scope's
fixture-id list is unchanged. -/
theorem fixtureIdsOfScope_writeFixture (fxs : List Fixture) (fid : Nat)
    (v : CachedTotals) (sid : Nat) :
    fixtureIdsOfScope (writeFixture fxs fid v) sid = fixtureIdsOfScope fxs sid := by
  simp only [fixtureIdsOfScope, writeFixture, List.filter_map, List.map_map]
  have h1 : ((fun f : Fixture => f.scopeId == sid)
        ∘ (fun f => if f.id = fid then applyCached v f else f))
      = (fun f : Fixture => f.scopeId == sid) := by
    funext f
    by_cases h : f.id = fid <;> simp [h, applyCached]
  have h2 : ((fun f : Fixture => f.id)
        ∘ (fun f => if f.id = fid then applyCached v f else f))
      = (fun f : Fixture => f.id) := by
    funext f
    by_cases h : f.id = fid <;> simp [h, applyCached]
  rw [h1, h2]

/-- Recalculating a fixture is stable: recalcStep run again on its own
output returns that output unchanged. A recalculated fixture either keeps
its result-derived totals (which recompute identically, the base fields
being untouched) or was zeroed for lack of a result, clearing is_played so
that the second pass skips it. -/
theorem recalcStep_stable (s : List Scope) (m : List TeamMembership)
    (r : List Result) (sc : List PlayerScore) (fxs fxs1 : List Fixture) (fid : Nat)
    (h : recalcStep s m r sc fxs fid = .ok fxs1) :
    recalcStep s m r sc fxs1 fid = .ok fxs1 := by
  rcases hf : fxs.find? (fun f => f.id = fid) with _ | f
  · simp only [recalcStep, hf] at h
    exact absurd h (by simp)
  · have hfid : f.id = fid := by simpa using List.find?_some hf
    simp only [recalcStep, hf] at h
    by_cases hg : (r.any (fun x => x.fixtureId = fid) || f.isPlayed) = true
    · rw [if_pos hg] at h
      rcases hc : recalcCore s m r sc f with e | v
      · simp only [recalcFixtures, hf, hc] at h
        exact absurd h (by simp)
      · simp only [recalcFixtures, hf, hc, Except.ok.injEq] at h
        subst h
        have hfind1 : (writeFixture fxs fid v).find? (fun g => g.id = fid)
            = some (applyCached v f) := find_writeFixture v hf
        by_cases hr : (r.any (fun x => x.fixtureId = fid)) = true
        · have hg1 : (r.any (fun x => x.fixtureId = fid)
              || (applyCached v f).isPlayed) = true := by
            rw [hr, Bool.true_or]
          simp only [recalcStep, hfind1]
          rw [if_pos hg1]
          simp only [recalcFixtures, hfind1, recalcCore_applyCached, hc]
          rw [writeFixture_writeFixture_self]
        · have hrf : r.any (fun x => x.fixtureId = fid) = false :=
            Bool.eq_false_iff.mpr hr
          have hnone : r.find? (fun x => x.fixtureId = f.id) = none := by
            rw [List.find?_eq_none]
            intro x hx
            have := (List.any_eq_false.mp hrf) x hx
            simpa [hfid] using this
          have hv : v = zeroTotals := by
            simp only [recalcCore, hnone, Except.ok.injEq] at hc
            exact hc.symm
          have hg1 : (r.any (fun x => x.fixtureId = fid)
              || (applyCached v f).isPlayed) = false := by
            rw [hrf, hv]
            rfl
          simp only [recalcStep, hfind1]
          rw [if_neg (by simp [hg1])]
    · rw [if_neg hg] at h
      simp only [Except.ok.injEq] at h
      subst h
      simp only [recalcStep, hf]
      rw [if_neg hg]

/-- A recalcStep on any fixture id preserves the stability of an already
stable fixture id: writes to other ids commute away, a write to the same
id is the stabilization lemma. -/
theorem recalcStep_preserves_stable (s : List Scope) (m : List TeamMembership)
    (r : List Result) (sc : List PlayerScore) (fxs fxs1 : List Fixture) (fid fid' : Nat)
    (hstab : recalcStep s m r sc fxs fid = .ok fxs)
    (h : recalcStep s m r sc fxs fid' = .ok fxs1) :
    recalcStep s m r sc fxs1 fid = .ok fxs1 := by
  by_cases he : fid' = fid
  · subst he
    exact recalcStep_stable s m r sc fxs fxs1 fid' h
  · rcases hf' : fxs.find? (fun f => f.id = fid') with _ | f'
    · simp only [recalcStep, hf'] at h
      exact absurd h (by simp)
    · simp only [recalcStep, hf'] at h
      by_cases hg' : (r.any (fun x => x.fixtureId = fid') || f'.isPlayed) = true
      · rw [if_pos hg'] at h
        rcases hc' : recalcCore s m r sc f' with e | v'
        · simp only [recalcFixtures, hf', hc'] at h
          exact absurd h (by simp)
        · simp only [recalcFixtures, hf', hc', Except.ok.injEq] at h
          subst h
          have hne : fid ≠ fid' := fun hx => he hx.symm
          have hfind : (writeFixture fxs fid' v').find? (fun g => g.id = fid)
              = fxs.find? (fun g => g.id = fid) := find_writeFixture_ne v' hne
          rcases hf : fxs.find? (fun f => f.id = fid) with _ | f
          · simp only [recalcStep, hf] at hstab
            exact absurd hstab (by simp)
          · simp only [recalcStep, hf] at hstab
            by_cases hg : (r.any (fun x => x.fixtureId = fid) || f.isPlayed) = true
            · rw [if_pos hg] at hstab
              rcases hc : recalcCore s m r sc f with e | v
              · simp only [recalcFixtures, hf, hc] at hstab
                exact absurd hstab (by simp)
              · simp only [recalcFixtures, hf, hc, Except.ok.injEq] at hstab
                simp only [recalcStep, hfind, hf]
                rw [if_pos hg]
                simp only [recalcFixtures, hfind, hf, hc]
                rw [writeFixture_comm _ _ _ _ _ hne, hstab]
            · rw [if_neg hg] at hstab
              simp only [recalcStep, hfind, hf]
              rw [if_neg hg]
      · rw [if_neg hg'] at h
        simp only [Except.ok.injEq] at h
        subst h
        exact hstab

/-- Stability of a fixture id survives a whole recalcList pass. -/
theorem recalcList_preserves_stable (s : List Scope) (m : List TeamMembership)
    (r : List Result) (sc : List PlayerScore) (fid : Nat) (ids : List Nat) :
    ∀ (fxs fxs' : List Fixture),
      recalcStep s m r sc fxs fid = .ok fxs →
      recalcList s m r sc fxs ids = .ok fxs' →
      recalcStep s m r sc fxs' fid = .ok fxs' := by
  induction ids with
  | nil =>
    intro fxs fxs' hstab h
    simp only [recalcList, Except.ok.injEq] at h
    subst h
    exact hstab
  | cons fid' rest ih =>
    intro fxs fxs' hstab h
    rcases hst : recalcStep s m r sc fxs fid' with e | fxs1
    · simp only [recalcList, hst] at h
      exact absurd h (by simp)
    · simp only [recalcList, hst] at h
      exact ih fxs1 fxs'
        (recalcStep_preserves_stable s m r sc fxs fxs1 fid fid' hstab hst) h

/-- The totals-recalculation pass is idempotent over any fixed id list:
run on its own successful output it succeeds with that same output. -/
theorem recalcList_idem (s : List Scope) (m : List TeamMembership)
    (r : List Result) (sc : List PlayerScore) (ids : List Nat) :
    ∀ (fxs fxs' : List Fixture),
      recalcList s m r sc fxs ids = .ok fxs' →
      recalcList s m r sc fxs' ids = .ok fxs' := by
  induction ids with
  | nil =>
    intro fxs fxs' h
    simp only [recalcList, Except.ok.injEq] at h
    subst h
    simp only [recalcList]
  | cons fid rest ih =>
    intro fxs fxs' h
    rcases hst : recalcStep s m r sc fxs fid with e | fxs1
    · simp only [recalcList, hst] at h
      exact absurd h (by simp)
    · simp only [recalcList, hst] at h
      have hstab1 : recalcStep s m r sc fxs1 fid = .ok fxs1 :=
        recalcStep_stable s m r sc fxs fxs1 fid hst
      have hstab' : recalcStep s m r sc fxs' fid = .ok fxs' :=
        recalcList_preserves_stable s m r sc fid rest fxs1 fxs' hstab1 h
      simp only [recalcList, hstab']
      exact ih fxs1 fxs' h

/-- One recalcStep leaves the scope's fixture-id list unchanged. -/
theorem fixtureIdsOfScope_recalcStep (s : List Scope) (m : List TeamMembership)
    (r : List Result) (sc : List PlayerScore) (fxs fxs1 : List Fixture)
    (fid sid : Nat) (h : recalcStep s m r sc fxs fid = .ok fxs1) :
    fixtureIdsOfScope fxs1 sid = fixtureIdsOfScope fxs sid := by
  rcases hf : fxs.find? (fun f => f.id = fid) with _ | f
  · simp only [recalcStep, hf] at h
    exact absurd h (by simp)
  · simp only [recalcStep, hf] at h
    by_cases hg : (r.any (fun x => x.fixtureId = fid) || f.isPlayed) = true
    · rw [if_pos hg] at h
      rcases hc : recalcCore s m r sc f with e | v
      · simp only [recalcFixtures, hf, hc] at h
        exact absurd h (by simp)
      · simp only [recalcFixtures, hf, hc, Except.ok.injEq] at h
        subst h
        exact fixtureIdsOfScope_writeFixture fxs fid v sid
    · rw [if_neg hg] at h
      simp only [Except.ok.injEq] at h
      subst h
      rfl

/-- A whole recalcList pass leaves the scope's fixture-id list unchanged. -/
theorem fixtureIdsOfScope_recalcList (s : List Scope) (m : List TeamMembership)
    (r : List Result) (sc : List PlayerScore) (sid : Nat) (ids : List Nat) :
    ∀ (fxs fxs' : List Fixture),
      recalcList s m r sc fxs ids = .ok fxs' →
      fixtureIdsOfScope fxs' sid = fixtureIdsOfScope fxs sid := by
  induction ids with
  | nil =>
    intro fxs fxs' h
    simp only [recalcList, Except.ok.injEq] at h
    subst h
    rfl
  | cons fid rest ih =>
    intro fxs fxs' h
    rcases hst : recalcStep s m r sc fxs fid with e | fxs1
    · simp only [recalcList, hst] at h
      exact absurd h (by simp)
    · simp only [recalcList, hst] at h
      rw [ih fxs1 fxs' h, fixtureIdsOfScope_recalcStep s m r sc fxs fxs1 fid sid hst]

/-- Filtering twice with the same predicate filters once. -/
theorem filter_idem {α : Type} (q : α → Bool) (l : List α) :
    (l.filter q).filter q = l.filter q := by
  rw [List.filter_filter]
  simp only [Bool.and_self]

/-- A map each of whose values is fixed is the identity. -/
theorem map_eq_self_of_forall {α : Type} {f : α → α} {l : List α}
    (h : ∀ a ∈ l, f a = a) : l.map f = l := by
  induction l with
  | nil => rfl
  | cons x t ih =>
    rw [List.map_cons, h x (by simp), ih (fun a ha => h a (by simp [ha]))]

/-- Replacing the scope's rows is a fixed point when the freshly computed
rows all belong to the scope. -/
theorem filter_append_new {α : Type} (q : α → Bool) (old fresh : List α)
    (h : ∀ x ∈ fresh, q x = false) :
    (old.filter q ++ fresh).filter q = old.filter q := by
  rw [List.filter_append, filter_idem]
  have hnil : fresh.filter q = [] := by
    rw [List.filter_eq_nil_iff]
    intro x hx
    rw [h x hx]
    exact Bool.false_ne_true
  rw [hnil, List.append_nil]

/-- Every computed team standing row carries the scope id it was built
for. -/
theorem compute_team_rows_scopeId (teams : List Team) (fixtures : List Fixture)
    (sid : Nat) :
    ∀ row ∈ compute_team_rows teams fixtures sid, row.scopeId = sid := by
  intro row hrow
  simp only [compute_team_rows] at hrow
  have hrow2 := (pySortByKey_perm _ _).subset hrow
  rcases List.mem_map.mp hrow2 with ⟨p, _, rfl⟩
  rfl

/-- Every computed player standing row carries the scope id it was built
for. -/
theorem compute_player_rows_scopeId (players : List Player) (fixtures : List Fixture)
    (results : List Result) (scores : List PlayerScore) (sid : Nat) :
    ∀ row ∈ compute_player_rows players fixtures results scores sid,
      row.scopeId = sid := by
  intro row hrow
  simp only [compute_player_rows] at hrow
  have hrow2 := (pySortByKey_perm _ _).subset hrow
  rcases List.mem_map.mp hrow2 with ⟨pid, _, rfl⟩
  rfl

/-- The records rebuild is idempotent: a second rebuild recomputes the same
snapshot and overwrites the row it just wrote. -/
theorem rebuild_records_idem (fx : List Fixture) (r : List Result)
    (s : List PlayerScore) (sid : Nat) (recs : List RecordSnapshot) :
    rebuild_records fx r s sid (rebuild_records fx r s sid recs)
      = rebuild_records fx r s sid recs := by
  have hc : (recordsOfScopePure fx r s sid).scopeId = sid := rfl
  by_cases hany : recs.any (fun x => x.scopeId = sid) = true
  · have h1 : rebuild_records fx r s sid recs
        = recs.map (fun x => if x.scopeId = sid then recordsOfScopePure fx r s sid else x) := by
      simp only [rebuild_records]
      rw [if_pos hany]
    rw [h1]
    have hany2 : (recs.map (fun x => if x.scopeId = sid
        then recordsOfScopePure fx r s sid else x)).any (fun x => x.scopeId = sid) = true := by
      rcases List.any_eq_true.mp hany with ⟨x, hx, hpx⟩
      refine List.any_eq_true.mpr ⟨_, List.mem_map_of_mem _ hx, ?_⟩
      by_cases hxs : x.scopeId = sid
      · rw [if_pos hxs]
        simpa using hc
      · exact absurd (by simpa using hpx) hxs
    simp only [rebuild_records]
    rw [if_pos hany2, List.map_map]
    have hgg : ((fun x : RecordSnapshot =>
          if x.scopeId = sid then recordsOfScopePure fx r s sid else x)
        ∘ (fun x : RecordSnapshot =>
          if x.scopeId = sid then recordsOfScopePure fx r s sid else x))
        = (fun x : RecordSnapshot =>
          if x.scopeId = sid then recordsOfScopePure fx r s sid else x) := by
      funext a
      by_cases ha : a.scopeId = sid
      · simp [ha, hc]
      · simp [ha]
    rw [hgg]
  · have hanyf : recs.any (fun x => x.scopeId = sid) = false := Bool.eq_false_iff.mpr hany
    have h1 : rebuild_records fx r s sid recs = recs ++ [recordsOfScopePure fx r s sid] := by
      simp only [rebuild_records]
      rw [if_neg hany]
    rw [h1]
    have hany2 : (recs ++ [recordsOfScopePure fx r s sid]).any
        (fun x => x.scopeId = sid) = true := by
      refine List.any_eq_true.mpr ⟨recordsOfScopePure fx r s sid, ?_, by simpa using hc⟩
      simp
    simp only [rebuild_records]
    rw [if_pos hany2, List.map_append]
    have hmap : recs.map (fun x => if x.scopeId = sid
        then recordsOfScopePure fx r s sid else x) = recs := by
      refine map_eq_self_of_forall ?_
      intro a ha
      have := List.any_eq_false.mp hanyf a ha
      rw [if_neg (by simpa using this)]
    rw [hmap]
    have hone : ([recordsOfScopePure fx r s sid] : List RecordSnapshot).map
        (fun x => if x.scopeId = sid then recordsOfScopePure fx r s sid else x)
        = [recordsOfScopePure fx r s sid] := by
      simp [hc]
    rw [hone]

/-- The power-ranking rebuild is idempotent: the delete-then-append pass
removes exactly the rows the previous pass appended (they all carry the
scope id) and recomputes them identically from the unchanged fixtures and
standings. -/
theorem rebuild_power_rankings_idem (tms : List Team) (fx : List Fixture)
    (st : List TeamStanding) (sid : Nat) (pr : List PowerRanking) :
    rebuild_power_rankings tms fx st sid (rebuild_power_rankings tms fx st sid pr)
      = rebuild_power_rankings tms fx st sid pr := by
  by_cases hts : (st.filter (fun t => t.scopeId == sid)).isEmpty = true
  · simp only [rebuild_power_rankings]
    rw [if_pos hts, if_pos hts, filter_idem]
  · by_cases hgw : (gameweeksOfScope fx sid).isEmpty = true
    · simp only [rebuild_power_rankings]
      rw [if_neg hts, if_pos hgw, if_neg hts, if_pos hgw, filter_idem]
    · have hbody : ∀ e ∈ ((gameweeksOfScope fx sid).map
          (rowsAtCutoff tms fx ((st.filter (fun t => t.scopeId == sid)).map
            (fun t => t.teamId)) sid)).flatten,
          (!(e.scopeId == sid)) = false := by
        intro e he
        rcases List.mem_flatten.mp he with ⟨chunk, hchunk, hechunk⟩
        rcases List.mem_map.mp hchunk with ⟨gw, _, rfl⟩
        have := (rowsAtCutoff_fields tms fx _ sid gw e hechunk).1
        simp [this]
      simp only [rebuild_power_rankings]
      rw [if_neg hts, if_neg hgw, if_neg hts, if_neg hgw]
      rw [filter_append_new _ _ _ hbody]

/-- C4: rebuild_scope_materialized is idempotent. Running it a second time
on the database a first successful run produced, with no intervening
change, succeeds and leaves the database - in particular the team
standings, player standings, record snapshot and power rankings - exactly
as the first run left it. -/
theorem rebuild_scope_idempotent (db db1 : DB) (sid : Nat)
    (h : rebuild_scope_materialized db sid = .ok db1) :
    rebuild_scope_materialized db1 sid = .ok db1 := by
  rcases hsc : db.scopes.find? (fun sc => sc.id = sid) with _ | scope
  · simp only [rebuild_scope_materialized, hsc] at h
    exact absurd h (by simp)
  · simp only [rebuild_scope_materialized, hsc] at h
    rcases hrl : recalcList db.scopes db.memberships db.results db.scores db.fixtures
        (fixtureIdsOfScope db.fixtures sid) with e | fxs1
    · simp only [hrl] at h
      exact absurd h (by simp)
    · simp only [hrl] at h
      have hfids : fixtureIdsOfScope fxs1 sid = fixtureIdsOfScope db.fixtures sid :=
        fixtureIdsOfScope_recalcList db.scopes db.memberships db.results db.scores sid
          (fixtureIdsOfScope db.fixtures sid) db.fixtures fxs1 hrl
      have hrl2 : recalcList db.scopes db.memberships db.results db.scores fxs1
          (fixtureIdsOfScope db.fixtures sid) = .ok fxs1 :=
        recalcList_idem db.scopes db.memberships db.results db.scores
          (fixtureIdsOfScope db.fixtures sid) db.fixtures fxs1 hrl
      by_cases hct : scope.compType = CompType.league
      · rw [if_neg (by simp [hct])] at h
        simp only [Except.ok.injEq] at h
        subst h
        simp only [rebuild_scope_materialized, hsc, hfids, hrl2]
        rw [if_neg (by simp [hct])]
        have hnewTS : ∀ x ∈ compute_team_rows db.teams fxs1 sid,
            (!(x.scopeId == sid)) = false := by
          intro x hx
          have := compute_team_rows_scopeId db.teams fxs1 sid x hx
          simp [this]
        have hnewPS : ∀ x ∈ compute_player_rows db.players fxs1 db.results db.scores sid,
            (!(x.scopeId == sid)) = false := by
          intro x hx
          have := compute_player_rows_scopeId db.players fxs1 db.results db.scores sid x hx
          simp [this]
        rw [filter_append_new _ _ _ hnewTS, filter_append_new _ _ _ hnewPS,
          rebuild_records_idem, rebuild_power_rankings_idem]
      · rw [if_pos (by simp [hct])] at h
        simp only [Except.ok.injEq] at h
        subst h
        simp only [rebuild_scope_materialized, hsc, hfids, hrl2]
        rw [if_pos (by simp [hct])]
        rw [filter_idem, filter_idem, filter_idem]

/-- A minimal database with one LEAGUE scope and no fixtures, for
evaluating the idempotence claim concretely. -/
def dbW : DB :=
  { seasons := [{ id := 1, startDate := 0, endDate := 365 }]
    scopes := [{ id := 10, seasonId := 1, compType := CompType.league }]
    teams := []
    players := []
    memberships := []
    transfers := []
    fixtures := []
    results := []
    scores := []
    teamStandings := []
    playerStandings := []
    records := []
    powerRankings := [] }

/-- The all-empty record snapshot the first rebuild of dbW creates. -/
def recW : RecordSnapshot :=
  { scopeId := 10
    biggestWinMargin := 0
    biggestWinFixtureId := none
    highestTeamMatchScore := 0
    highestTeamMatchFixtureId := none
    highestTeamMatchTeamId := none
    highestPlayerScore := 0
    highestPlayerId := none
    highestPlayerScoreFixtureId := none
    longestWinStreak := 0
    longestUnbeatenStreak := 0 }

/-- The state the first rebuild of dbW produces: the only change is the
freshly created (all-empty) record snapshot of the scope. -/
def dbW1 : DB :=
  { dbW with records := [recW] }

theorem rebuild_scope_idempotent_witness :
    rebuild_scope_materialized dbW 10 = .ok dbW1 ∧
    rebuild_scope_materialized dbW1 10 = .ok dbW1 :=
  ⟨by rfl, rebuild_scope_idempotent dbW dbW1 10 (by rfl)⟩
